import Mathlib

/-!
# Slideshow generator (`src/widgets/slideshowgeneratorwidget.cpp`)

A shallow embedding of `SlideshowGeneratorWidget`: the timeline builder
`getSlideshow`, the geometry helper `applyAffineFilterProperties`, the
transition helper `applyLumaTransitionProperties` and the parameter guard
`on_parameterChanged`.

Conventions of the embedding.

* C++ `int` is `Int`; `/` and `%` on `int` are the truncating `Int.tdiv` and
  `Int.tmod`.  The conversion of a `double` to `int` is taken as exact (no
  overflow of the 32-bit range is modelled).
* C++ `double` is `ℚ` (exact arithmetic).  A quotient whose divisor is zero is
  `0` in `ℚ` whereas it is infinite or NaN in floating point, so statements
  about a quotient are meaningful only for a non-zero divisor.
* The one place where the rounding of a `double` decides an integer result is
  the product under `ceil` at line 159.  `framesPerClip` takes that product
  over exact rationals; `framesPerClipDouble` rounds it to the nearest
  `double` first (`roundDouble`), as the machine does, and
  `beforeTransitionsDouble` is the copy and filter blocks run with that count.
* The MLT library (`Mlt::Playlist`, `Mlt::Producer`, `Mlt::Filter`,
  `Mlt::Transition`) and the Qt widgets are not part of the source file.
  They are modelled by the small records below, holding exactly the
  properties the source file reads or writes.
-/

namespace Slideshow

/-! ## Data model -/

/-- Enumerator `ASPECT_CONVERSION_PAD_BLACK` (line 40). -/
def ASPECT_CONVERSION_PAD_BLACK : Int := 0
/-- Enumerator `ASPECT_CONVERSION_CROP_CENTER` (line 41). -/
def ASPECT_CONVERSION_CROP_CENTER : Int := 1
/-- Enumerator `ASPECT_CONVERSION_CROP_PAN` (line 42). -/
def ASPECT_CONVERSION_CROP_PAN : Int := 2

/-- The record `SlideshowConfig`: the six fields assigned in
`on_parameterChanged` (lines 358-363), all of them `int`. -/
structure SlideshowConfig where
  clipDuration : Int
  aspectConversion : Int
  zoomPercent : Int
  transitionDuration : Int
  transitionStyle : Int
  transitionSoftness : Int
deriving DecidableEq, Repr

/-- The part of `Mlt::Profile` the source reads: `width()`, `height()`,
`dar()` and `fps()`. -/
structure Profile where
  width : Int
  height : Int
  dar : ℚ
  fps : ℚ
deriving DecidableEq, Repr

/-- The record `mlt_rect` with its five `double` fields. -/
structure mlt_rect where
  x : ℚ
  y : ℚ
  w : ℚ
  h : ℚ
  o : ℚ
deriving DecidableEq, Repr

/-- An `Mlt::Filter` as far as `applyAffineFilterProperties` writes it: the two
key frames of `transition.rect` (the rectangle at frame 0 and the rectangle at
`endPosition`) and the scalar properties of lines 306-314.  The two time codes
`shotcut:animIn` and `shotcut:animOut` are kept as the frame numbers handed to
`frames_to_time`. -/
structure Filter where
  service : String
  rectBegin : Option mlt_rect := none
  rectEnd : Option (mlt_rect × Int) := none
  fill : Option Int := none
  distort : Option Int := none
  valign : Option String := none
  halign : Option String := none
  threads : Option Int := none
  background : Option String := none
  shotcutFilter : Option String := none
  animIn : Option Int := none
  animOut : Option Int := none
deriving DecidableEq, Repr

/-- An `Mlt::Transition` as far as the source writes it: the service it was
created for and the properties set by `applyLumaTransitionProperties`. -/
structure Transition where
  service : String
  resource : Option String := none
  softness : Option ℚ := none
  progressive : Option Int := none
  alpha_over : Option Int := none
deriving DecidableEq, Repr

/-- An `Mlt::Producer` as far as the source uses it: its profile, the three
numeric properties read by `applyAffineFilterProperties`, whether the producer
built from its XML serialisation is valid (line 170), the filters attached to
it (line 185), the property `kShotcutTransitionProperty` (line 207) and, for the
tractor that `Mlt::Playlist::mix` creates, the transitions added with
`mix_add` (`none` for an ordinary clip). -/
structure Producer where
  profile : Profile
  meta_media_width : ℚ
  meta_media_height : ℚ
  aspect_ratio : ℚ
  xmlValid : Bool := true
  filters : List Filter := []
  shotcutTransition : Option String := none
  tractor : Option (List Transition) := none
deriving DecidableEq, Repr

/-- A playlist entry, as reported by `Mlt::Playlist::clip_info`: the producer
and the inclusive frame range. -/
structure ClipInfo where
  producer : Producer
  frame_in : Int
  frame_out : Int
deriving DecidableEq, Repr

/-- An `Mlt::Playlist`: its profile and its ordered entries. -/
structure Playlist where
  profile : Profile
  entries : List ClipInfo
deriving DecidableEq, Repr

/-- An entry is a transition entry when its producer is a mix tractor. -/
def ClipInfo.isTransition (c : ClipInfo) : Bool := c.producer.tractor.isSome

/-- An entry is a clip entry when its producer is an ordinary producer. -/
def ClipInfo.isClip (c : ClipInfo) : Bool := c.producer.tractor.isNone

/-- Number of frames of an entry with an inclusive frame range. -/
def ClipInfo.frameCount (c : ClipInfo) : Int := c.frame_out - c.frame_in + 1

/-! ## The playlist operations used by `getSlideshow` -/

/-- `Mlt::Playlist::count`. -/
def Playlist.count (p : Playlist) : Int := p.entries.length

/-- `Mlt::Playlist::clip_info(index, &info)`: null outside `0 .. count-1`. -/
def Playlist.clip_info (p : Playlist) (index : Int) : Option ClipInfo :=
  if 0 ≤ index then p.entries[index.toNat]? else none

/-- `Mlt::Playlist::get_clip(index)`: the producer of the entry, null outside
`0 .. count-1`. -/
def Playlist.get_clip (p : Playlist) (index : Int) : Option Producer :=
  (p.clip_info index).map ClipInfo.producer

/-- `Mlt::Playlist::append(producer, in, out)`: an invalid producer is not
appended. -/
def Playlist.append (p : Playlist) (producer : Producer) (frame_in frame_out : Int) :
    Playlist :=
  if producer.xmlValid then
    { p with entries := p.entries ++ [{ producer := producer, frame_in := frame_in,
                                        frame_out := frame_out }] }
  else p

/-- Replace the producer of the entry at `index` by `f` of it (a mutation made
through the pointer that `clip_info` or `get_clip` returns). -/
def Playlist.modifyProducer (p : Playlist) (index : Int) (f : Producer → Producer) :
    Playlist :=
  if 0 ≤ index then
    { p with entries := p.entries.modify (fun c => { c with producer := f c.producer })
                          index.toNat }
  else p

/-- The tractor entry that `Mlt::Playlist::mix` creates for a mix of `length`
frames: frames `0 .. length-1`, no transition added yet. -/
def mixEntry (profile : Profile) (length : Int) (property : Option String)
    (ts : List Transition) : ClipInfo :=
  { producer := { profile := profile, meta_media_width := 0, meta_media_height := 0,
                  aspect_ratio := 0, shotcutTransition := property, tractor := some ts },
    frame_in := 0, frame_out := length - 1 }

/-- `Mlt::Playlist::mix(clip, length)`, as a list operation: the adjacent
entries at `clip` and `clip + 1` become entry, mix, entry; the call fails and
leaves the playlist alone when `clip < 0` or `clip + 1 >= count`.  The library
also shortens the frame ranges of the two neighbours by the overlap; that is
not modelled. -/
def Playlist.mix (p : Playlist) (clip : Int) (length : Int) : Playlist :=
  if 0 ≤ clip ∧ clip + 1 < p.count then
    { p with entries := p.entries.take (clip.toNat + 1)
                          ++ mixEntry p.profile length none [] :: p.entries.drop (clip.toNat + 1) }
  else p

/-- `Mlt::Playlist::mix_add(clip, transition)`: plants the transition on the
mix tractor at `clip`; no effect when that entry is not a mix. -/
def Playlist.mix_add (p : Playlist) (clip : Int) (t : Transition) : Playlist :=
  p.modifyProducer clip (fun pr =>
    match pr.tractor with
    | some ts => { pr with tractor := some (ts ++ [t]) }
    | none => pr)

/-! ## `applyAffineFilterProperties` (lines 226-315) -/

/-- Lines 243-251: the display aspect ratio of the source image, with the
profile's ratio as the fallback when a width, height or pixel aspect is zero. -/
def sourceDar (producer : Producer) : ℚ :=
  let destDar : ℚ := producer.profile.dar
  let sourceW : ℚ := producer.meta_media_width
  let sourceH : ℚ := producer.meta_media_height
  let sourceAr : ℚ := producer.aspect_ratio
  if sourceW ≠ 0 ∧ sourceH ≠ 0 ∧ sourceAr ≠ 0 then sourceW * sourceAr / sourceH
  else destDar

/-- Lines 228-293: the begin and end rectangles before the zoom is applied. -/
def cropRects (config : SlideshowConfig) (producer : Producer) : mlt_rect × mlt_rect :=
  let width : ℚ := producer.profile.width
  let height : ℚ := producer.profile.height
  let beginRect : mlt_rect := { x := 0, y := 0, w := width, h := height, o := 1 }
  let endRect : mlt_rect :=
    { x := beginRect.x, y := beginRect.y, w := beginRect.w, h := beginRect.h, o := 1 }
  if config.aspectConversion ≠ ASPECT_CONVERSION_PAD_BLACK then
    let destDar : ℚ := producer.profile.dar
    let sourceDar : ℚ := sourceDar producer
    if sourceDar > destDar then
      -- Crop sides to fit height
      let beginRect := { beginRect with w := width * sourceDar / destDar, h := height, y := 0 }
      let endRect := { endRect with w := beginRect.w, h := beginRect.h, y := beginRect.y }
      if config.aspectConversion = ASPECT_CONVERSION_CROP_CENTER then
        let beginRect := { beginRect with x := (width - beginRect.w) / 2 }
        let endRect := { endRect with x := beginRect.x }
        (beginRect, endRect)
      else
        let beginRect := { beginRect with x := 0 }
        let endRect := { endRect with x := width - endRect.w }
        (beginRect, endRect)
    else if destDar > sourceDar then
      -- Crop top and bottom to fit width.
      let beginRect := { beginRect with w := width, h := height * destDar / sourceDar, x := 0 }
      let endRect := { endRect with w := beginRect.w, h := beginRect.h, x := beginRect.x }
      if config.aspectConversion = ASPECT_CONVERSION_CROP_CENTER then
        let beginRect := { beginRect with y := (height - beginRect.h) / 2 }
        let endRect := { endRect with y := beginRect.y }
        (beginRect, endRect)
      else
        let beginRect := { beginRect with y := 0 }
        let endRect := { endRect with y := height - endRect.h }
        (beginRect, endRect)
    else (beginRect, endRect)
  else (beginRect, endRect)

/-- Lines 295-302: the zoom, applied to the end rectangle only.  The four
assignments run in order, so `w` and `h` are still the old values when `x` and
`y` are updated. -/
def zoomRect (config : SlideshowConfig) (endRect : mlt_rect) : mlt_rect :=
  if config.zoomPercent ≠ 0 then
    let endScale : ℚ := (config.zoomPercent : ℚ) / 100
    let endRect := { endRect with x := endRect.x - (endScale * endRect.w / 2) }
    let endRect := { endRect with y := endRect.y - (endScale * endRect.h / 2) }
    let endRect := { endRect with w := endRect.w + (endScale * endRect.w) }
    let endRect := { endRect with h := endRect.h + (endScale * endRect.h) }
    endRect
  else endRect

/-- The begin rectangle that `applyAffineFilterProperties` sets at frame 0. -/
def beginRect (config : SlideshowConfig) (producer : Producer) : mlt_rect :=
  (cropRects config producer).1

/-- The end rectangle that `applyAffineFilterProperties` sets at
`endPosition`. -/
def endRect (config : SlideshowConfig) (producer : Producer) : mlt_rect :=
  zoomRect config (cropRects config producer).2

/-- `SlideshowGeneratorWidget::applyAffineFilterProperties`. -/
def applyAffineFilterProperties (filter : Filter) (config : SlideshowConfig)
    (producer : Producer) (endPosition : Int) : Filter :=
  { filter with
    rectBegin := some (beginRect config producer)
    rectEnd := some (endRect config producer, endPosition)
    fill := some 1
    distort := some 0
    valign := some "middle"
    halign := some "center"
    threads := some 0
    background := some "color:#000000"
    shotcutFilter := some "affineSizePosition"
    animIn := some endPosition
    animOut := some 0 }

/-! ## `applyLumaTransitionProperties` (lines 317-335) -/

/-- The randomness source: the stream of values the successive calls of
`rand()` return.  A call takes the head and leaves the tail. -/
abbrev Rand := Nat → Int

/-- One call of `rand()`. -/
def rand (rng : Rand) : Int × Rand := (rng 0, fun n => rng (n + 1))

/-- `QString::arg(int a, int fieldWidth, 10, QChar fillChar)`: the decimal
text of `a`, padded on the left to `fieldWidth` characters (after the sign). -/
def qArg (a : Int) (fieldWidth : Nat) (fillChar : Char) : String :=
  if a < 0 then
    let digits := toString a.natAbs
    "-" ++ String.mk (List.replicate (fieldWidth - 1 - digits.length) fillChar) ++ digits
  else
    let digits := toString a.toNat
    String.mk (List.replicate (fieldWidth - digits.length) fillChar) ++ digits

/-- `QString("%luma%1.pgm").arg(n, 2, 10, QChar('0'))`. -/
def lumaResource (n : Int) : String := "%luma" ++ qArg n 2 '0' ++ ".pgm"

/-- Lines 319-324: the effective style index, with a call of `rand()` when the
configured style is 0. -/
def lumaIndex (config : SlideshowConfig) (rng : Rand) : Int × Rand :=
  let index := config.transitionStyle
  if index = 0 then
    -- Random: pick any number other than 0
    let r := rand rng
    (Int.tmod r.1 24 + 1, r.2)
  else (index, rng)

/-- `SlideshowGeneratorWidget::applyLumaTransitionProperties`; `playerGPU` is
the value of `Settings.playerGPU()`. -/
def applyLumaTransitionProperties (luma : Transition) (config : SlideshowConfig)
    (playerGPU : Bool) (rng : Rand) : Transition × Rand :=
  let ir := lumaIndex config rng
  let index := ir.1
  let luma :=
    if index = 1 then
      -- Dissolve
      { luma with resource := some "" }
    else
      { luma with resource := some (lumaResource (index - 1)) }
  let luma := { luma with softness := some ((config.transitionSoftness : ℚ) / 100) }
  let luma := { luma with progressive := some 1 }
  let luma := if !playerGPU then { luma with alpha_over := some 1 } else luma
  (luma, ir.2)

/-! ## `getSlideshow` (lines 151-224) -/

/-- Line 159, `ceil((double)config.clipDuration * fps)`, with the product taken
over exact rationals (no rounding of the product to a `double`). -/
def framesPerClip (config : SlideshowConfig) (fps : ℚ) : Int :=
  ⌈(config.clipDuration : ℚ) * fps⌉

/-- Lines 191-195: the transition length in frames, capped by
`framesPerClip / 2 - 1`. -/
def framesPerTransition (config : SlideshowConfig) (fps : ℚ) : Int :=
  let framesPerClip := framesPerClip config fps
  let framesPerTransition : Int := ⌈(config.transitionDuration : ℚ) * fps⌉
  if framesPerTransition > Int.tdiv framesPerClip 2 - 1 then Int.tdiv framesPerClip 2 - 1
  else framesPerTransition

/-- Lines 164-173, "Copy clips": every entry of `m_clips` is re-instantiated
from its XML and appended with the range
`frame_in .. frame_in + framesPerClip - 1`. -/
def copyClips (m_clips : Playlist) (framesPerClip : Int) : Playlist :=
  (List.range m_clips.count.toNat).foldl
    (fun (slideshow : Playlist) (i : Nat) =>
      match m_clips.clip_info (i : Int) with
      | some c => slideshow.append c.producer c.frame_in (c.frame_in + framesPerClip - 1)
      | none => slideshow)
    { profile := m_clips.profile, entries := [] }

/-- The body of the filter loop, lines 180-186, at index `i`. -/
def attachAffine (config : SlideshowConfig) (framesPerClip : Int) (slideshow : Playlist)
    (i : Int) : Playlist :=
  match slideshow.clip_info i with
  | some c =>
    let filter := applyAffineFilterProperties { service := "affine" } config c.producer
      (c.frame_in + framesPerClip - 1)
    slideshow.modifyProducer i (fun p => { p with filters := p.filters ++ [filter] })
  | none => slideshow

/-- Lines 175-188, "Add filters". -/
def addFilters (config : SlideshowConfig) (framesPerClip : Int) (count : Int)
    (slideshow : Playlist) : Playlist :=
  if config.zoomPercent > 0 ∨ config.aspectConversion ≠ ASPECT_CONVERSION_PAD_BLACK then
    (List.range count.toNat).foldl
      (fun (slideshow : Playlist) (i : Nat) => attachAffine config framesPerClip slideshow (i : Int))
      slideshow
  else slideshow

/-- State threaded through the transition loop: the growing playlist, the
randomness source, and (for the statements only) the indices at which the loop
body called `mix`, in order. -/
structure LoopState where
  slideshow : Playlist
  rng : Rand
  mixedAt : List Int

/-- Lines 198-220: the loop `for (int i = 0; i < count - 1; i++)` whose body
increments both `count` and `i`, started at the given `i` and `count`. -/
def transitionLoop (config : SlideshowConfig) (playerGPU : Bool)
    (framesPerTransition : Int) (i count : Int) (st : LoopState) : LoopState :=
  if i < count - 1 then
    -- Create playlist mix
    let slideshow := st.slideshow.mix i framesPerTransition
    match slideshow.get_clip (i + 1) with
    | none => { st with slideshow := slideshow, mixedAt := st.mixedAt ++ [i] }
    | some _ =>
      let slideshow :=
        slideshow.modifyProducer (i + 1) (fun p => { p with shotcutTransition := some "lumaMix" })
      -- Add mix transition
      let crossFade : Transition := { service := "mix:-1" }
      let slideshow := slideshow.mix_add (i + 1) crossFade
      -- Add luma transition
      let luma : Transition := { service := if playerGPU then "movit.luma_mix" else "luma" }
      let lr := applyLumaTransitionProperties luma config playerGPU st.rng
      let slideshow := slideshow.mix_add (i + 1) lr.1
      transitionLoop config playerGPU framesPerTransition (i + 1 + 1) (count + 1)
        { slideshow := slideshow, rng := lr.2, mixedAt := st.mixedAt ++ [i] }
  else st
termination_by (count - 1 - i).toNat
decreasing_by omega

/-- The whole of `getSlideshow`, returning the final loop state. -/
def getSlideshowRun (m_clips : Playlist) (m_config : SlideshowConfig) (playerGPU : Bool)
    (rng : Rand) : LoopState :=
  let config := m_config
  let framesPerClip := framesPerClip config m_clips.profile.fps
  let count := m_clips.count
  -- Copy clips
  let slideshow := copyClips m_clips framesPerClip
  -- Add filters
  let slideshow := addFilters config framesPerClip count slideshow
  -- Add transitions
  let framesPerTransition := framesPerTransition config m_clips.profile.fps
  if framesPerTransition > 0 then
    transitionLoop config playerGPU framesPerTransition 0 count
      { slideshow := slideshow, rng := rng, mixedAt := [] }
  else { slideshow := slideshow, rng := rng, mixedAt := [] }

/-- `SlideshowGeneratorWidget::getSlideshow`: the playlist it returns. -/
def getSlideshow (m_clips : Playlist) (m_config : SlideshowConfig) (playerGPU : Bool)
    (rng : Rand) : Playlist :=
  (getSlideshowRun m_clips m_config playerGPU rng).slideshow

/-- The playlist of `getSlideshow` just before the block "Add transitions"
(after lines 159-188). -/
def beforeTransitions (m_clips : Playlist) (m_config : SlideshowConfig) : Playlist :=
  let framesPerClip := framesPerClip m_config m_clips.profile.fps
  addFilters m_config framesPerClip m_clips.count (copyClips m_clips framesPerClip)

/-! ## Line 159 in `double` arithmetic -/

/-- Rounding of a rational to the nearest integer, ties to the even one. -/
def roundHalfEven (q : ℚ) : Int :=
  let f := ⌊q⌋
  let r := q - f
  if r < 1 / 2 then f
  else if r > 1 / 2 then f + 1
  else if f % 2 = 0 then f else f + 1

/-- The value a `double` operation stores for the exact result `q`: `q` rounded
to the nearest number with a 53-bit significand (IEEE 754 binary64, round to
nearest, ties to even).  Overflow and subnormal numbers are not modelled. -/
def roundDouble (q : ℚ) : ℚ :=
  if q = 0 then 0
  else
    let e := Int.log 2 |q|
    let ulp : ℚ := (2 : ℚ) ^ (e - 52)
    (roundHalfEven (q / ulp) : ℚ) * ulp

/-- Line 159 as the machine evaluates it: `fps` is the `double` that
`profile()->fps()` returns, the `int` duration converts to `double` exactly,
the product is rounded to a `double`, and `ceil` of it is converted to `int`. -/
def framesPerClipDouble (config : SlideshowConfig) (fps : ℚ) : Int :=
  ⌈roundDouble ((config.clipDuration : ℚ) * fps)⌉

/-- The playlist of `getSlideshow` just before the block "Add transitions"
(lines 159-188), with line 159 evaluated in `double` arithmetic. -/
def beforeTransitionsDouble (m_clips : Playlist) (m_config : SlideshowConfig) : Playlist :=
  let framesPerClip := framesPerClipDouble m_config m_clips.profile.fps
  addFilters m_config framesPerClip m_clips.count (copyClips m_clips framesPerClip)

/-! ## `on_parameterChanged` (lines 337-370) -/

/-- A `QSpinBox` as far as the source uses it: range, value, enabled flag. -/
structure QSpinBox where
  minimum : Int
  maximum : Int
  value : Int
  enabled : Bool := true
deriving DecidableEq, Repr

/-- A `QComboBox` as far as the source uses it: current index, enabled flag. -/
structure QComboBox where
  currentIndex : Int
  enabled : Bool := true
deriving DecidableEq, Repr

/-- `QSpinBox::setValue`: the new value is bounded to `minimum .. maximum`. -/
def QSpinBox.setValue (sb : QSpinBox) (val : Int) : QSpinBox :=
  let v := if val < sb.minimum then sb.minimum else val
  let v := if v > sb.maximum then sb.maximum else v
  { sb with value := v }

/-- `QWidget::setEnabled` on a spin box. -/
def QSpinBox.setEnabled (sb : QSpinBox) (b : Bool) : QSpinBox := { sb with enabled := b }

/-- `QWidget::setEnabled` on a combo box. -/
def QComboBox.setEnabled (cb : QComboBox) (b : Bool) : QComboBox := { cb with enabled := b }

/-- The members of `SlideshowGeneratorWidget` that `on_parameterChanged` reads
or writes (the preview widget and the future of the background job are left
out). -/
structure Widget where
  m_clipDurationSpinner : QSpinBox
  m_aspectConversionCombo : QComboBox
  m_zoomPercentSpinner : QSpinBox
  m_transitionDurationSpinner : QSpinBox
  m_transitionStyleCombo : QComboBox
  m_softnessSpinner : QSpinBox
  m_config : SlideshowConfig
  m_refreshPreview : Bool
deriving DecidableEq, Repr

/-- Lines 343-363 of `on_parameterChanged`: the enabling of the style and
softness inputs and the copy of the six values into `m_config`. -/
def storeParameters (w : Widget) : Widget :=
  let w :=
    if w.m_transitionDurationSpinner.value = 0 then
      { w with m_transitionStyleCombo := w.m_transitionStyleCombo.setEnabled false,
               m_softnessSpinner := w.m_softnessSpinner.setEnabled false }
    else
      { w with m_transitionStyleCombo := w.m_transitionStyleCombo.setEnabled true,
               m_softnessSpinner := w.m_softnessSpinner.setEnabled true }
  { w with
    m_refreshPreview := true
    m_config :=
      { clipDuration := w.m_clipDurationSpinner.value
        aspectConversion := w.m_aspectConversionCombo.currentIndex
        zoomPercent := w.m_zoomPercentSpinner.value
        transitionDuration := w.m_transitionDurationSpinner.value
        transitionStyle := w.m_transitionStyleCombo.currentIndex
        transitionSoftness := w.m_softnessSpinner.value } }

/-- `SlideshowGeneratorWidget::on_parameterChanged`.  The spin box's
`valueChanged(int)` is connected to this very slot (line 91), so a `setValue`
that changes the value runs the slot again, inside the call, before the caller
goes on.  The first argument bounds the depth of that nesting; `none` means the
bound was reached. -/
def on_parameterChanged : Nat → Widget → Option Widget
  | 0, _ => none
  | depth + 1, w =>
    let guarded : Option Widget :=
      if w.m_transitionDurationSpinner.value > Int.tdiv w.m_clipDurationSpinner.value 2 then
        let spinner :=
          w.m_transitionDurationSpinner.setValue (Int.tdiv w.m_clipDurationSpinner.value 2)
        let w1 := { w with m_transitionDurationSpinner := spinner }
        if spinner.value ≠ w.m_transitionDurationSpinner.value then on_parameterChanged depth w1
        else some w1
      else some w
    guarded.map storeParameters

/-- The widget as the constructor leaves the two duration spin boxes (ranges
4..600 and 0..10, lines 58-59 and 88-89) and the other inputs at their initial
values, with the given clip and transition durations entered. -/
def widgetWith (clipDuration transitionDuration : Int) : Widget :=
  { m_clipDurationSpinner := { minimum := 4, maximum := 600, value := clipDuration }
    m_aspectConversionCombo := { currentIndex := ASPECT_CONVERSION_CROP_CENTER }
    m_zoomPercentSpinner := { minimum := 0, maximum := 50, value := 10 }
    m_transitionDurationSpinner := { minimum := 0, maximum := 10, value := transitionDuration }
    m_transitionStyleCombo := { currentIndex := 1 }
    m_softnessSpinner := { minimum := 0, maximum := 100, value := 20 }
    m_config := { clipDuration := 10, aspectConversion := 1, zoomPercent := 10,
                  transitionDuration := 2, transitionStyle := 1, transitionSoftness := 20 }
    m_refreshPreview := false }

/-! ## Specification functions used in the statements about `getSlideshow` -/

/-- The entry `getSlideshow` makes from the source entry `c` before the
transitions are inserted: the copy with the range
`frame_in .. frame_in + framesPerClip - 1` (line 171) and, when the filter block
runs (line 176), the affine filter attached (lines 183-185). -/
def slideshowClip (config : SlideshowConfig) (framesPerClip : Int) (c : ClipInfo) : ClipInfo :=
  let frame_out := c.frame_in + framesPerClip - 1
  if config.zoomPercent > 0 ∨ config.aspectConversion ≠ ASPECT_CONVERSION_PAD_BLACK then
    { producer :=
        { c.producer with
          filters := c.producer.filters
            ++ [applyAffineFilterProperties { service := "affine" } config c.producer frame_out] }
      frame_in := c.frame_in, frame_out := frame_out }
  else { producer := c.producer, frame_in := c.frame_in, frame_out := frame_out }

/-- The transition entry one pass of the loop body leaves behind: a mix of
`framesPerTransition` frames tagged `lumaMix` that carries the cross-fade
`mix:-1` and then the luma transition. -/
def transitionEntry (profile : Profile) (framesPerTransition : Int) (luma : Transition) :
    ClipInfo :=
  mixEntry profile framesPerTransition (some "lumaMix") [{ service := "mix:-1" }, luma]

/-- The luma transition of one pass of the loop body (lines 214-215) and the
randomness source after it. -/
def lumaFor (config : SlideshowConfig) (playerGPU : Bool) (rng : Rand) : Transition × Rand :=
  applyLumaTransitionProperties { service := if playerGPU then "movit.luma_mix" else "luma" }
    config playerGPU rng

/-- Interleaving of the clips `cs` with one transition entry between each pair
of neighbours, drawing the luma transitions from left to right.  The loop of
`getSlideshow` is proved to compute this list. -/
def weave (profile : Profile) (config : SlideshowConfig) (playerGPU : Bool)
    (framesPerTransition : Int) : List ClipInfo → Rand → List ClipInfo × Rand
  | [], rng => ([], rng)
  | [c], rng => ([c], rng)
  | c :: c' :: cs, rng =>
    let lr := lumaFor config playerGPU rng
    let tail := weave profile config playerGPU framesPerTransition (c' :: cs) lr.2
    (c :: transitionEntry profile framesPerTransition lr.1 :: tail.1, tail.2)

/-! ## Example inputs -/

/-- A 1920 x 1080 target profile, 16:9, 25 frames per second. -/
def hdProfile : Profile := { width := 1920, height := 1080, dar := 16 / 9, fps := 25 }

/-- A 3000 x 1000 image with square pixels (display aspect ratio 3). -/
def wideImage : Producer :=
  { profile := hdProfile, meta_media_width := 3000, meta_media_height := 1000, aspect_ratio := 1 }

/-- A 1000 x 1000 image with square pixels (display aspect ratio 1). -/
def squareImage : Producer :=
  { profile := hdProfile, meta_media_width := 1000, meta_media_height := 1000, aspect_ratio := 1 }

/-- Crop-centre with the default zoom of 10 percent. -/
def cropCenterZoom10 : SlideshowConfig :=
  { clipDuration := 10, aspectConversion := ASPECT_CONVERSION_CROP_CENTER, zoomPercent := 10,
    transitionDuration := 2, transitionStyle := 1, transitionSoftness := 20 }

/-- Crop-centre without zoom. -/
def cropCenterNoZoom : SlideshowConfig :=
  { clipDuration := 10, aspectConversion := ASPECT_CONVERSION_CROP_CENTER, zoomPercent := 0,
    transitionDuration := 2, transitionStyle := 1, transitionSoftness := 20 }

/-- Crop-and-pan with the default zoom of 10 percent. -/
def cropPanZoom10 : SlideshowConfig :=
  { clipDuration := 10, aspectConversion := ASPECT_CONVERSION_CROP_PAN, zoomPercent := 10,
    transitionDuration := 2, transitionStyle := 1, transitionSoftness := 20 }

/-- Crop-and-pan without zoom. -/
def cropPanNoZoom : SlideshowConfig :=
  { clipDuration := 10, aspectConversion := ASPECT_CONVERSION_CROP_PAN, zoomPercent := 0,
    transitionDuration := 2, transitionStyle := 1, transitionSoftness := 20 }

/-- Pad-black with a zoom of 20 percent. -/
def padBlackZoom20 : SlideshowConfig :=
  { clipDuration := 10, aspectConversion := ASPECT_CONVERSION_PAD_BLACK, zoomPercent := 20,
    transitionDuration := 2, transitionStyle := 1, transitionSoftness := 20 }

/-- The filter `getSlideshow` creates before filling it in (line 183). -/
def affine : Filter := { service := "affine" }

/-- The luma transition `getSlideshow` creates before filling it in (line 214,
without GPU). -/
def lumaBlank : Transition := { service := "luma" }

/-- A configuration with the given transition style, otherwise the defaults of
the constructor (10 s clips, crop-centre, 10 percent zoom, 2 s transitions,
softness 20). -/
def styleConfig (style : Int) : SlideshowConfig :=
  { clipDuration := 10, aspectConversion := ASPECT_CONVERSION_CROP_CENTER, zoomPercent := 10,
    transitionDuration := 2, transitionStyle := style, transitionSoftness := 20 }

/-- A randomness source whose every call returns `r`. -/
def constRand (r : Int) : Rand := fun _ => r

/-- A source playlist of five clips on the 1920 x 1080, 25 fps profile, with
assorted sizes, in-frames and out-frames. -/
def fiveClips : Playlist :=
  { profile := hdProfile
    entries :=
      [ { producer := wideImage, frame_in := 0, frame_out := 100 },
        { producer := squareImage, frame_in := 5, frame_out := 100 },
        { producer := wideImage, frame_in := 0, frame_out := 10 },
        { producer := squareImage, frame_in := 0, frame_out := 999 },
        { producer := wideImage, frame_in := 7, frame_out := 8 } ] }

/-- The configuration the constructor sets up: 10 s clips, crop-centre, 10
percent zoom, 2 s transitions, dissolve, softness 20. -/
def defaultConfig : SlideshowConfig := styleConfig 1

/-- The `double` nearest to 100/3, which is what `fps()` returns for a frame
rate of 100/3: it is 4691249611844267 / 2^47, a little above 100/3. -/
def fpsThirds : ℚ := 4691249611844267 / 140737488355328

/-- A 1920 x 1080 profile whose frame rate is 100/3. -/
def thirdsProfile : Profile := { width := 1920, height := 1080, dar := 16 / 9, fps := fpsThirds }

/-- A source playlist of one clip on the 100/3 fps profile. -/
def oneClipThirds : Playlist :=
  { profile := thirdsProfile
    entries := [ { producer := { wideImage with profile := thirdsProfile }, frame_in := 0,
                   frame_out := 100 } ] }

/-- Pad-black without zoom and with the given clip duration. -/
def durationConfig (clipDuration : Int) : SlideshowConfig :=
  { clipDuration := clipDuration, aspectConversion := ASPECT_CONVERSION_PAD_BLACK,
    zoomPercent := 0, transitionDuration := 2, transitionStyle := 1, transitionSoftness := 20 }

/-! # Theorems -/

/-! ## Geometry lemmas -/

/-- The rectangle keyed to frame 0 (line 304). -/
theorem applyAffine_rectBegin (filter : Filter) (config : SlideshowConfig)
    (producer : Producer) (endPosition : Int) :
    (applyAffineFilterProperties filter config producer endPosition).rectBegin
      = some (beginRect config producer) := rfl

/-- The rectangle keyed to `endPosition` (line 305). -/
theorem applyAffine_rectEnd (filter : Filter) (config : SlideshowConfig)
    (producer : Producer) (endPosition : Int) :
    (applyAffineFilterProperties filter config producer endPosition).rectEnd
      = some (endRect config producer, endPosition) := rfl

/-- Enlarging a positive length by a ratio above one does not shrink it. -/
theorem le_mul_div_of_lt {W a b : ℚ} (hW : 0 < W) (hb : 0 < b) (hab : b < a) :
    W ≤ W * a / b := by
  rw [le_div_iff₀ hb]
  nlinarith

/-- The zoom moves the origin down and the far edge up when the scale is not negative. -/
theorem zoomRect_covers (config : SlideshowConfig) (r : mlt_rect) (W H : ℚ)
    (hz : 0 ≤ config.zoomPercent) (hw : 0 ≤ r.w) (hh : 0 ≤ r.h)
    (hx : r.x ≤ 0) (hy : r.y ≤ 0) (hxw : W ≤ r.x + r.w) (hyh : H ≤ r.y + r.h) :
    (zoomRect config r).x ≤ 0 ∧ (zoomRect config r).y ≤ 0
      ∧ W ≤ (zoomRect config r).x + (zoomRect config r).w
      ∧ H ≤ (zoomRect config r).y + (zoomRect config r).h := by
  have hs : (0 : ℚ) ≤ (config.zoomPercent : ℚ) / 100 := by
    have : (0 : ℚ) ≤ (config.zoomPercent : ℚ) := by exact_mod_cast hz
    positivity
  unfold zoomRect
  split_ifs with h0
  · have h1 := mul_nonneg hs hw
    have h2 := mul_nonneg hs hh
    refine ⟨?_, ?_, ?_, ?_⟩ <;> dsimp only <;> linarith
  · exact ⟨hx, hy, hxw, hyh⟩

/-- The source display aspect ratio is positive when the profile's ratio is
and the three source properties are zero or positive. -/
theorem sourceDar_pos (producer : Producer) (hdar : 0 < producer.profile.dar)
    (hw : 0 ≤ producer.meta_media_width) (hh : 0 ≤ producer.meta_media_height)
    (har : 0 ≤ producer.aspect_ratio) : 0 < sourceDar producer := by
  unfold sourceDar
  simp only []
  split_ifs with h
  · obtain ⟨h1, h2, h3⟩ := h
    have p1 := lt_of_le_of_ne hw (Ne.symm h1)
    have p2 := lt_of_le_of_ne hh (Ne.symm h2)
    have p3 := lt_of_le_of_ne har (Ne.symm h3)
    positivity
  · exact hdar

/-- Before the zoom, both rectangles contain the target frame and have
non-negative sizes. -/
theorem cropRects_covers (config : SlideshowConfig) (producer : Producer)
    (hW : 0 < producer.profile.width) (hH : 0 < producer.profile.height)
    (hdar : 0 < producer.profile.dar)
    (hw : 0 ≤ producer.meta_media_width) (hh : 0 ≤ producer.meta_media_height)
    (har : 0 ≤ producer.aspect_ratio) :
    ((cropRects config producer).1.x ≤ 0 ∧ (cropRects config producer).1.y ≤ 0
      ∧ (producer.profile.width : ℚ)
          ≤ (cropRects config producer).1.x + (cropRects config producer).1.w
      ∧ (producer.profile.height : ℚ)
          ≤ (cropRects config producer).1.y + (cropRects config producer).1.h)
    ∧ ((cropRects config producer).2.x ≤ 0 ∧ (cropRects config producer).2.y ≤ 0
      ∧ (producer.profile.width : ℚ)
          ≤ (cropRects config producer).2.x + (cropRects config producer).2.w
      ∧ (producer.profile.height : ℚ)
          ≤ (cropRects config producer).2.y + (cropRects config producer).2.h)
    ∧ 0 ≤ (cropRects config producer).2.w ∧ 0 ≤ (cropRects config producer).2.h := by
  have hWq : (0 : ℚ) < (producer.profile.width : ℚ) := by exact_mod_cast hW
  have hHq : (0 : ℚ) < (producer.profile.height : ℚ) := by exact_mod_cast hH
  have hsd := sourceDar_pos producer hdar hw hh har
  unfold cropRects
  simp only []
  split_ifs with hmode hwide hcenter htall hcenter
  · have key := le_mul_div_of_lt hWq hdar hwide
    refine ⟨⟨?_, ?_, ?_, ?_⟩, ⟨?_, ?_, ?_, ?_⟩, ?_, ?_⟩ <;> dsimp only <;> linarith
  · have key := le_mul_div_of_lt hWq hdar hwide
    refine ⟨⟨?_, ?_, ?_, ?_⟩, ⟨?_, ?_, ?_, ?_⟩, ?_, ?_⟩ <;> dsimp only <;> linarith
  · have key := le_mul_div_of_lt hHq hsd htall
    refine ⟨⟨?_, ?_, ?_, ?_⟩, ⟨?_, ?_, ?_, ?_⟩, ?_, ?_⟩ <;> dsimp only <;> linarith
  · have key := le_mul_div_of_lt hHq hsd htall
    refine ⟨⟨?_, ?_, ?_, ?_⟩, ⟨?_, ?_, ?_, ?_⟩, ?_, ?_⟩ <;> dsimp only <;> linarith
  · refine ⟨⟨?_, ?_, ?_, ?_⟩, ⟨?_, ?_, ?_, ?_⟩, ?_, ?_⟩ <;> dsimp only <;> linarith
  · refine ⟨⟨?_, ?_, ?_, ?_⟩, ⟨?_, ?_, ?_, ?_⟩, ?_, ?_⟩ <;> dsimp only <;> linarith

/-- C10. Frame coverage invariant of `applyAffineFilterProperties`: for a
target frame with positive width, height and display aspect ratio, any aspect
conversion mode, a zoom percentage in 0..50 and a clip whose width, height and
pixel aspect are each zero or positive, the rectangle set at frame 0 and the
rectangle set at `endPosition` both contain the whole target frame:
`x ≤ 0`, `y ≤ 0`, `x + w ≥ W` and `y + h ≥ H`. -/
theorem C10_frame_coverage (filter : Filter) (config : SlideshowConfig) (producer : Producer)
    (endPosition : Int)
    (hW : 0 < producer.profile.width) (hH : 0 < producer.profile.height)
    (hdar : 0 < producer.profile.dar)
    (hz0 : 0 ≤ config.zoomPercent) (_hz50 : config.zoomPercent ≤ 50)
    (hw : 0 ≤ producer.meta_media_width) (hh : 0 ≤ producer.meta_media_height)
    (har : 0 ≤ producer.aspect_ratio) :
    ∃ b e : mlt_rect,
      (applyAffineFilterProperties filter config producer endPosition).rectBegin = some b
      ∧ (applyAffineFilterProperties filter config producer endPosition).rectEnd
          = some (e, endPosition)
      ∧ (b.x ≤ 0 ∧ b.y ≤ 0 ∧ b.x + b.w ≥ producer.profile.width
          ∧ b.y + b.h ≥ producer.profile.height)
      ∧ (e.x ≤ 0 ∧ e.y ≤ 0 ∧ e.x + e.w ≥ producer.profile.width
          ∧ e.y + e.h ≥ producer.profile.height) := by
  obtain ⟨hb, ⟨ex, ey, exw, eyh⟩, ew, eh⟩ := cropRects_covers config producer hW hH hdar hw hh har
  exact ⟨beginRect config producer, endRect config producer, rfl, rfl, hb,
    zoomRect_covers config _ _ _ hz0 ew eh ex ey exw eyh⟩

/-- C10 at a concrete input: crop-and-pan with 10 percent zoom on a
3000 x 1000 image; both rectangles contain the 1920 x 1080 frame. -/
theorem C10_frame_coverage_witness :
    ∃ b e : mlt_rect,
      (applyAffineFilterProperties affine cropPanZoom10 wideImage 249).rectBegin = some b
      ∧ (applyAffineFilterProperties affine cropPanZoom10 wideImage 249).rectEnd = some (e, 249)
      ∧ (b.x ≤ 0 ∧ b.y ≤ 0 ∧ b.x + b.w ≥ 1920 ∧ b.y + b.h ≥ 1080)
      ∧ (e.x ≤ 0 ∧ e.y ≤ 0 ∧ e.x + e.w ≥ 1920 ∧ e.y + e.h ≥ 1080) := by
  have h := C10_frame_coverage affine cropPanZoom10 wideImage 249 (by decide) (by decide)
    (by norm_num [wideImage, hdProfile]) (by decide) (by decide)
    (by norm_num [wideImage]) (by norm_num [wideImage]) (by norm_num [wideImage])
  simpa [wideImage, hdProfile] using h

/-- The source ratio of a clip whose three properties are all known. -/
theorem sourceDar_known (producer : Producer) (hw : producer.meta_media_width ≠ 0)
    (hh : producer.meta_media_height ≠ 0) (har : producer.aspect_ratio ≠ 0) :
    sourceDar producer
      = producer.meta_media_width * producer.aspect_ratio / producer.meta_media_height := by
  unfold sourceDar
  simp [hw, hh, har]

/-- C5 as stated fails. With crop-centre and the default zoom of 10 percent, a
3000 x 1000 image on a 1920 x 1080 frame (source ratio 3 above target ratio
16/9) gets the begin rectangle (-660, 0, 3240, 1080) and the different end
rectangle (-822, -54, 3564, 1188). -/
theorem C5_counterexample :
    cropCenterZoom10.aspectConversion = ASPECT_CONVERSION_CROP_CENTER
    ∧ wideImage.meta_media_width ≠ 0 ∧ wideImage.meta_media_height ≠ 0
    ∧ wideImage.aspect_ratio ≠ 0
    ∧ wideImage.meta_media_width * wideImage.aspect_ratio / wideImage.meta_media_height
        > wideImage.profile.dar
    ∧ (applyAffineFilterProperties affine cropCenterZoom10 wideImage 249).rectBegin
        = some { x := -660, y := 0, w := 3240, h := 1080, o := 1 }
    ∧ (applyAffineFilterProperties affine cropCenterZoom10 wideImage 249).rectEnd
        = some ({ x := -822, y := -54, w := 3564, h := 1188, o := 1 }, 249)
    ∧ ¬ ((applyAffineFilterProperties affine cropCenterZoom10 wideImage 249).rectEnd
        = ((applyAffineFilterProperties affine cropCenterZoom10 wideImage 249).rectBegin).map
            (fun b => (b, 249))) := by
  have hb : (applyAffineFilterProperties affine cropCenterZoom10 wideImage 249).rectBegin
        = some { x := -660, y := 0, w := 3240, h := 1080, o := 1 } := by
    norm_num [applyAffineFilterProperties, beginRect, cropRects, sourceDar, cropCenterZoom10,
      wideImage, hdProfile, ASPECT_CONVERSION_CROP_CENTER, ASPECT_CONVERSION_PAD_BLACK]
  have he : (applyAffineFilterProperties affine cropCenterZoom10 wideImage 249).rectEnd
        = some ({ x := -822, y := -54, w := 3564, h := 1188, o := 1 }, 249) := by
    norm_num [applyAffineFilterProperties, endRect, zoomRect, cropRects, sourceDar,
      cropCenterZoom10, wideImage, hdProfile, ASPECT_CONVERSION_CROP_CENTER,
      ASPECT_CONVERSION_PAD_BLACK]
  refine ⟨rfl, ?_, ?_, ?_, ?_, hb, he, ?_⟩
  · norm_num [wideImage]
  · norm_num [wideImage]
  · norm_num [wideImage]
  · norm_num [wideImage, hdProfile]
  · rw [hb, he]
    norm_num

/-- The rectangles before the zoom in the crop-centre case with a wider source. -/
theorem cropRects_center_wide (config : SlideshowConfig) (producer : Producer)
    (hmode : config.aspectConversion = ASPECT_CONVERSION_CROP_CENTER)
    (hwide : sourceDar producer > producer.profile.dar) :
    cropRects config producer
      = ({ x := ((producer.profile.width : ℚ)
                  - (producer.profile.width : ℚ) * sourceDar producer / producer.profile.dar) / 2
           y := 0
           w := (producer.profile.width : ℚ) * sourceDar producer / producer.profile.dar
           h := producer.profile.height
           o := 1 },
         { x := ((producer.profile.width : ℚ)
                  - (producer.profile.width : ℚ) * sourceDar producer / producer.profile.dar) / 2
           y := 0
           w := (producer.profile.width : ℚ) * sourceDar producer / producer.profile.dar
           h := producer.profile.height
           o := 1 }) := by
  unfold cropRects
  simp only [hmode, if_pos hwide]
  simp [ASPECT_CONVERSION_CROP_CENTER, ASPECT_CONVERSION_PAD_BLACK]

/-- The zoom written out on the four fields; with `zoomPercent = 0` it is the
identity. -/
theorem zoomRect_eq (config : SlideshowConfig) (r : mlt_rect) :
    zoomRect config r
      = { x := r.x - (config.zoomPercent : ℚ) / 100 * r.w / 2
          y := r.y - (config.zoomPercent : ℚ) / 100 * r.h / 2
          w := r.w + (config.zoomPercent : ℚ) / 100 * r.w
          h := r.h + (config.zoomPercent : ℚ) / 100 * r.h
          o := r.o } := by
  unfold zoomRect
  split_ifs with hz
  · rfl
  · have hz0 : config.zoomPercent = 0 := by simpa using hz
    simp [hz0]

/-- C5 (amended). Crop-centre geometry of `applyAffineFilterProperties` for a
clip with non-zero width, height and pixel aspect whose source ratio
`sourceDar = width * pixelAspect / height` exceeds the target ratio: with
`w = targetWidth * sourceDar / targetDar`, the begin rectangle is
`((targetWidth - w) / 2, 0, w, targetHeight)`, horizontally centred; the end
rectangle is identical to it when `zoomPercent = 0`, and for any zoom it is
that rectangle enlarged by `s = zoomPercent / 100` about its centre,
`((targetWidth - w) / 2 - s * w / 2, 0 - s * targetHeight / 2, w + s * w,
targetHeight + s * targetHeight)`. -/
theorem C5_crop_center (filter : Filter) (config : SlideshowConfig) (producer : Producer)
    (endPosition : Int) (W H srcDar w s : ℚ)
    (hW : W = producer.profile.width) (hH : H = producer.profile.height)
    (hsrc : srcDar
      = producer.meta_media_width * producer.aspect_ratio / producer.meta_media_height)
    (hcrop : w = W * srcDar / producer.profile.dar)
    (hs : s = (config.zoomPercent : ℚ) / 100)
    (hmode : config.aspectConversion = ASPECT_CONVERSION_CROP_CENTER)
    (hw : producer.meta_media_width ≠ 0) (hh : producer.meta_media_height ≠ 0)
    (har : producer.aspect_ratio ≠ 0)
    (hwide : srcDar > producer.profile.dar) :
    (applyAffineFilterProperties filter config producer endPosition).rectBegin
      = some { x := (W - w) / 2, y := 0, w := w, h := H, o := 1 }
    ∧ (config.zoomPercent = 0 →
        (applyAffineFilterProperties filter config producer endPosition).rectEnd
          = some ({ x := (W - w) / 2, y := 0, w := w, h := H, o := 1 }, endPosition))
    ∧ (applyAffineFilterProperties filter config producer endPosition).rectEnd
      = some ({ x := (W - w) / 2 - s * w / 2, y := 0 - s * H / 2, w := w + s * w,
                h := H + s * H, o := 1 }, endPosition) := by
  have hsd := sourceDar_known producer hw hh har
  have hc := cropRects_center_wide config producer hmode (by rw [hsd, ← hsrc]; exact hwide)
  rw [hsd, ← hsrc, ← hW, ← hH, ← hcrop] at hc
  refine ⟨?_, ?_, ?_⟩
  · rw [applyAffine_rectBegin, beginRect, hc]
  · intro hz
    rw [applyAffine_rectEnd, endRect, hc]
    simp [zoomRect, hz]
  · rw [applyAffine_rectEnd, endRect, hc, zoomRect_eq, ← hs]

/-- C5 (amended) at a concrete input: crop-centre without zoom on a
3000 x 1000 image gives the same rectangle (-660, 0, 3240, 1080) twice. -/
theorem C5_crop_center_witness :
    (applyAffineFilterProperties affine cropCenterNoZoom wideImage 249).rectBegin
      = some { x := (1920 - 3240) / 2, y := 0, w := 3240, h := 1080, o := 1 }
    ∧ (applyAffineFilterProperties affine cropCenterNoZoom wideImage 249).rectEnd
      = some ({ x := (1920 - 3240) / 2, y := 0, w := 3240, h := 1080, o := 1 }, 249) :=
  have h := C5_crop_center affine cropCenterNoZoom wideImage 249 1920 1080 3 3240 0
    (by norm_num [wideImage, hdProfile]) (by norm_num [wideImage, hdProfile])
    (by norm_num [wideImage]) (by norm_num [wideImage, hdProfile])
    (by norm_num [cropCenterNoZoom]) rfl
    (by norm_num [wideImage]) (by norm_num [wideImage]) (by norm_num [wideImage])
    (by norm_num [wideImage, hdProfile])
  ⟨h.1, h.2.1 rfl⟩

/-- The rectangles before the zoom in the crop-and-pan case with a wider source. -/
theorem cropRects_pan_wide (config : SlideshowConfig) (producer : Producer)
    (hmode : config.aspectConversion = ASPECT_CONVERSION_CROP_PAN)
    (hwide : sourceDar producer > producer.profile.dar) :
    cropRects config producer
      = ({ x := 0
           y := 0
           w := (producer.profile.width : ℚ) * sourceDar producer / producer.profile.dar
           h := producer.profile.height
           o := 1 },
         { x := (producer.profile.width : ℚ)
                  - (producer.profile.width : ℚ) * sourceDar producer / producer.profile.dar
           y := 0
           w := (producer.profile.width : ℚ) * sourceDar producer / producer.profile.dar
           h := producer.profile.height
           o := 1 }) := by
  unfold cropRects
  simp only [hmode, if_pos hwide]
  simp [ASPECT_CONVERSION_CROP_PAN, ASPECT_CONVERSION_CROP_CENTER, ASPECT_CONVERSION_PAD_BLACK]

/-- The rectangles before the zoom in the crop-and-pan case with a taller source. -/
theorem cropRects_pan_tall (config : SlideshowConfig) (producer : Producer)
    (hmode : config.aspectConversion = ASPECT_CONVERSION_CROP_PAN)
    (htall : producer.profile.dar > sourceDar producer) :
    cropRects config producer
      = ({ x := 0
           y := 0
           w := producer.profile.width
           h := (producer.profile.height : ℚ) * producer.profile.dar / sourceDar producer
           o := 1 },
         { x := 0
           y := (producer.profile.height : ℚ)
                  - (producer.profile.height : ℚ) * producer.profile.dar / sourceDar producer
           w := producer.profile.width
           h := (producer.profile.height : ℚ) * producer.profile.dar / sourceDar producer
           o := 1 }) := by
  have hnot : ¬ sourceDar producer > producer.profile.dar := not_lt.mpr (le_of_lt htall)
  unfold cropRects
  simp only [hmode, if_neg hnot, if_pos htall]
  simp [ASPECT_CONVERSION_CROP_PAN, ASPECT_CONVERSION_CROP_CENTER, ASPECT_CONVERSION_PAD_BLACK]

/-- C6 as stated fails. With crop-and-pan and the default zoom of 10 percent, a
3000 x 1000 image on a 1920 x 1080 frame has crop width 3240, and the end
rectangle starts at x = -1482, not at 1920 - 3240 = -1320. -/
theorem C6_counterexample :
    cropPanZoom10.aspectConversion = ASPECT_CONVERSION_CROP_PAN
    ∧ wideImage.meta_media_width ≠ 0 ∧ wideImage.meta_media_height ≠ 0
    ∧ wideImage.aspect_ratio ≠ 0
    ∧ wideImage.meta_media_width * wideImage.aspect_ratio / wideImage.meta_media_height
        > wideImage.profile.dar
    ∧ (wideImage.profile.width : ℚ)
        * (wideImage.meta_media_width * wideImage.aspect_ratio / wideImage.meta_media_height)
        / wideImage.profile.dar = 3240
    ∧ (applyAffineFilterProperties affine cropPanZoom10 wideImage 249).rectEnd
        = some ({ x := -1482, y := -54, w := 3564, h := 1188, o := 1 }, 249)
    ∧ (-1482 : ℚ) ≠ (wideImage.profile.width : ℚ) - 3240 := by
  refine ⟨rfl, ?_, ?_, ?_, ?_, ?_, ?_, ?_⟩
  · norm_num [wideImage]
  · norm_num [wideImage]
  · norm_num [wideImage]
  · norm_num [wideImage, hdProfile]
  · norm_num [wideImage, hdProfile]
  · norm_num [applyAffineFilterProperties, endRect, zoomRect, cropRects, sourceDar,
      cropPanZoom10, wideImage, hdProfile, ASPECT_CONVERSION_CROP_CENTER,
      ASPECT_CONVERSION_PAD_BLACK, ASPECT_CONVERSION_CROP_PAN]
  · norm_num [wideImage, hdProfile]

/-- C6 (amended). Crop-and-pan geometry of `applyAffineFilterProperties` for a
clip with non-zero width, height and pixel aspect, with
`sourceDar = width * pixelAspect / height` and `s = zoomPercent / 100`.
If `sourceDar > targetDar` then, with
`cropWidth = targetWidth * sourceDar / targetDar`, the begin rectangle has
`x = 0` and the end rectangle has
`x = targetWidth - cropWidth - s * cropWidth / 2`, which is
`targetWidth - cropWidth` when `zoomPercent = 0`.  Symmetrically, if
`targetDar > sourceDar` then, with
`cropHeight = targetHeight * targetDar / sourceDar`, the begin rectangle has
`y = 0` and the end rectangle has
`y = targetHeight - cropHeight - s * cropHeight / 2`, which is
`targetHeight - cropHeight` when `zoomPercent = 0`. -/
theorem C6_crop_pan (filter : Filter) (config : SlideshowConfig) (producer : Producer)
    (endPosition : Int) (W H srcDar cropWidth cropHeight s : ℚ)
    (hW : W = producer.profile.width) (hH : H = producer.profile.height)
    (hsrc : srcDar
      = producer.meta_media_width * producer.aspect_ratio / producer.meta_media_height)
    (hcw : cropWidth = W * srcDar / producer.profile.dar)
    (hch : cropHeight = H * producer.profile.dar / srcDar)
    (hs : s = (config.zoomPercent : ℚ) / 100)
    (hmode : config.aspectConversion = ASPECT_CONVERSION_CROP_PAN)
    (hw : producer.meta_media_width ≠ 0) (hh : producer.meta_media_height ≠ 0)
    (har : producer.aspect_ratio ≠ 0) :
    ∃ b e : mlt_rect,
      (applyAffineFilterProperties filter config producer endPosition).rectBegin = some b
      ∧ (applyAffineFilterProperties filter config producer endPosition).rectEnd
          = some (e, endPosition)
      ∧ (srcDar > producer.profile.dar →
          b.x = 0 ∧ e.x = W - cropWidth - s * cropWidth / 2
          ∧ (config.zoomPercent = 0 → e.x = W - cropWidth))
      ∧ (producer.profile.dar > srcDar →
          b.y = 0 ∧ e.y = H - cropHeight - s * cropHeight / 2
          ∧ (config.zoomPercent = 0 → e.y = H - cropHeight)) := by
  have hsd := sourceDar_known producer hw hh har
  rw [← hsrc] at hsd
  refine ⟨beginRect config producer, endRect config producer, rfl, rfl, ?_, ?_⟩
  · intro hwide
    have hc := cropRects_pan_wide config producer hmode (by rw [hsd]; exact hwide)
    rw [hsd, ← hW, ← hH, ← hcw] at hc
    have hz0 : config.zoomPercent = 0 → s = 0 := by intro h; rw [hs, h]; norm_num
    refine ⟨?_, ?_, ?_⟩
    · rw [beginRect, hc]
    · rw [endRect, hc, zoomRect_eq, ← hs]
    · intro hz
      rw [endRect, hc, zoomRect_eq, ← hs, hz0 hz]
      norm_num
  · intro htall
    have hc := cropRects_pan_tall config producer hmode (by rw [hsd]; exact htall)
    rw [hsd, ← hW, ← hH, ← hch] at hc
    have hz0 : config.zoomPercent = 0 → s = 0 := by intro h; rw [hs, h]; norm_num
    refine ⟨?_, ?_, ?_⟩
    · rw [beginRect, hc]
    · rw [endRect, hc, zoomRect_eq, ← hs]
    · intro hz
      rw [endRect, hc, zoomRect_eq, ← hs, hz0 hz]
      norm_num

/-- C6 (amended) at a concrete input: crop-and-pan without zoom on a
3000 x 1000 image (crop width 3240, so the pan ends at x = -1320). -/
theorem C6_crop_pan_witness :
    ∃ b e : mlt_rect,
      (applyAffineFilterProperties affine cropPanNoZoom wideImage 249).rectBegin = some b
      ∧ (applyAffineFilterProperties affine cropPanNoZoom wideImage 249).rectEnd
          = some (e, 249)
      ∧ ((3 : ℚ) > wideImage.profile.dar →
          b.x = 0 ∧ e.x = 1920 - 3240 - 0 * 3240 / 2
          ∧ (cropPanNoZoom.zoomPercent = 0 → e.x = 1920 - 3240))
      ∧ (wideImage.profile.dar > (3 : ℚ) →
          b.y = 0 ∧ e.y = 1080 - 640 - 0 * 640 / 2
          ∧ (cropPanNoZoom.zoomPercent = 0 → e.y = 1080 - 640)) :=
  C6_crop_pan affine cropPanNoZoom wideImage 249 1920 1080 3 3240 640 0
    (by norm_num [wideImage, hdProfile]) (by norm_num [wideImage, hdProfile])
    (by norm_num [wideImage]) (by norm_num [wideImage, hdProfile])
    (by norm_num [wideImage, hdProfile])
    (by norm_num [cropPanNoZoom]) rfl
    (by norm_num [wideImage]) (by norm_num [wideImage]) (by norm_num [wideImage])

/-- C7. Zoom-only geometry of `applyAffineFilterProperties`: in pad-black mode
with `zoomPercent` in 1..50 and `s = zoomPercent / 100`, whatever the clip's
metadata, the begin rectangle is the full frame `(0, 0, W, H)` (no crop) and
the end rectangle is `(-sW/2, -sH/2, W + sW, H + sH)`; its centre stays at
`(W/2, H/2)`. -/
theorem C7_zoom_only (filter : Filter) (config : SlideshowConfig) (producer : Producer)
    (endPosition : Int) (W H s : ℚ)
    (hW : W = producer.profile.width) (hH : H = producer.profile.height)
    (hs : s = (config.zoomPercent : ℚ) / 100)
    (hmode : config.aspectConversion = ASPECT_CONVERSION_PAD_BLACK)
    (_hz1 : 1 ≤ config.zoomPercent) (_hz50 : config.zoomPercent ≤ 50) :
    (applyAffineFilterProperties filter config producer endPosition).rectBegin
      = some { x := 0, y := 0, w := W, h := H, o := 1 }
    ∧ (applyAffineFilterProperties filter config producer endPosition).rectEnd
      = some ({ x := -(s * W) / 2, y := -(s * H) / 2, w := W + s * W, h := H + s * H, o := 1 },
              endPosition)
    ∧ -(s * W) / 2 + (W + s * W) / 2 = W / 2
    ∧ -(s * H) / 2 + (H + s * H) / 2 = H / 2 := by
  have hc : cropRects config producer
      = ({ x := 0, y := 0, w := W, h := H, o := 1 }, { x := 0, y := 0, w := W, h := H, o := 1 }) := by
    unfold cropRects
    simp [hmode, hW, hH]
  refine ⟨?_, ?_, by ring, by ring⟩
  · rw [applyAffine_rectBegin, beginRect, hc]
  · rw [applyAffine_rectEnd, endRect, hc, zoomRect_eq, ← hs]
    simp only [zero_sub, Option.some.injEq, Prod.mk.injEq, and_true, mlt_rect.mk.injEq]
    constructor <;> ring

/-- C7 at the spec's input: a zoom of 20 percent on a 1920 x 1080 frame gives
the end rectangle (-0.1 W, -0.1 H, 1.2 W, 1.2 H) = (-192, -108, 2304, 1296),
also for an image whose ratio differs from the frame's. -/
theorem C7_zoom_only_witness :
    (applyAffineFilterProperties affine padBlackZoom20 wideImage 249).rectBegin
      = some { x := 0, y := 0, w := 1920, h := 1080, o := 1 }
    ∧ (applyAffineFilterProperties affine padBlackZoom20 wideImage 249).rectEnd
      = some ({ x := -192, y := -108, w := 2304, h := 1296, o := 1 }, 249) := by
  have h := C7_zoom_only affine padBlackZoom20 wideImage 249 1920 1080 (1 / 5)
    (by norm_num [wideImage, hdProfile]) (by norm_num [wideImage, hdProfile])
    (by norm_num [padBlackZoom20]) rfl (by decide) (by decide)
  refine ⟨h.1, ?_⟩
  rw [h.2.1]
  norm_num

/-- The resource written by `applyLumaTransitionProperties`, by effective index. -/
theorem applyLuma_resource (luma : Transition) (config : SlideshowConfig) (playerGPU : Bool)
    (rng : Rand) :
    (applyLumaTransitionProperties luma config playerGPU rng).1.resource
      = some (if (lumaIndex config rng).1 = 1 then ""
              else lumaResource ((lumaIndex config rng).1 - 1)) := by
  unfold applyLumaTransitionProperties
  cases playerGPU <;> split_ifs <;> simp_all

/-- The effective index of a fixed (non-zero) style is the style itself. -/
theorem lumaIndex_fixed (config : SlideshowConfig) (rng : Rand)
    (h : config.transitionStyle ≠ 0) : lumaIndex config rng = (config.transitionStyle, rng) := by
  unfold lumaIndex
  simp [h]

/-- The two-digit names of the numbers 1 to 23. -/
theorem lumaResource_two_digit (n : Int) (h1 : 1 ≤ n) (h23 : n ≤ 23) :
    lumaResource n
      = "%luma" ++ String.mk [Nat.digitChar (n.toNat / 10), Nat.digitChar (n.toNat % 10)]
          ++ ".pgm" := by
  interval_cases n <;> decide

/-- The names of the numbers 1 to 23 are pairwise different. -/
theorem lumaResource_injective (n m : Int) (h1 : 1 ≤ n) (h23 : n ≤ 23) (g1 : 1 ≤ m)
    (g23 : m ≤ 23) (h : lumaResource n = lumaResource m) : n = m := by
  interval_cases n <;> interval_cases m <;> first | rfl | (exact absurd h (by decide))

/-- C3 as stated fails. For the first wipe style, index 2, the resource is
pattern 01 (`%luma01.pgm`), not pattern 00. -/
theorem C3_counterexample :
    (applyLumaTransitionProperties lumaBlank (styleConfig 2) false (constRand 0)).1.resource
      = some "%luma01.pgm"
    ∧ (applyLumaTransitionProperties lumaBlank (styleConfig 2) false (constRand 0)).1.resource
      ≠ some "%luma00.pgm"
    ∧ (applyLumaTransitionProperties lumaBlank (styleConfig 2) false (constRand 0)).1.resource
      ≠ some "00" := by
  decide

/-- C3 (amended). Wipe resource naming in `applyLumaTransitionProperties`: for
every fixed style index `s` with `2 ≤ s ≤ 24` the resource set on the
transition is `%lumaNN.pgm` where `NN` is `s - 1` written as a zero-padded
two-digit decimal (style 2 selects 01, style 24 selects 23), and different
styles in that range get different resources. -/
theorem C3_wipe_resource (luma : Transition) (config : SlideshowConfig) (playerGPU : Bool)
    (rng : Rand) (h2 : 2 ≤ config.transitionStyle) (h24 : config.transitionStyle ≤ 24) :
    (applyLumaTransitionProperties luma config playerGPU rng).1.resource
      = some ("%luma"
          ++ String.mk [Nat.digitChar ((config.transitionStyle - 1).toNat / 10),
                        Nat.digitChar ((config.transitionStyle - 1).toNat % 10)]
          ++ ".pgm")
    ∧ ∀ (luma' : Transition) (config' : SlideshowConfig) (playerGPU' : Bool) (rng' : Rand),
        2 ≤ config'.transitionStyle → config'.transitionStyle ≤ 24 →
        (applyLumaTransitionProperties luma' config' playerGPU' rng').1.resource
          = (applyLumaTransitionProperties luma config playerGPU rng).1.resource →
        config'.transitionStyle = config.transitionStyle := by
  have key : ∀ (l : Transition) (c : SlideshowConfig) (g : Bool) (r : Rand),
      2 ≤ c.transitionStyle → c.transitionStyle ≤ 24 →
      (applyLumaTransitionProperties l c g r).1.resource
        = some (lumaResource (c.transitionStyle - 1)) := by
    intro l c g r c2 c24
    rw [applyLuma_resource, lumaIndex_fixed c r (by omega)]
    rw [if_neg (by show ¬ c.transitionStyle = 1; omega)]
  constructor
  · rw [key luma config playerGPU rng h2 h24,
      lumaResource_two_digit _ (by omega) (by omega)]
  · intro luma' config' playerGPU' rng' g2 g24 heq
    rw [key luma config playerGPU rng h2 h24, key luma' config' playerGPU' rng' g2 g24] at heq
    have := lumaResource_injective _ _ (by omega) (by omega) (by omega) (by omega)
      (Option.some.inj heq)
    omega

/-- C3 (amended) at the last style of the range: style 24 selects pattern 23. -/
theorem C3_wipe_resource_witness :
    (applyLumaTransitionProperties lumaBlank (styleConfig 24) false (constRand 0)).1.resource
      = some "%luma23.pgm" :=
  (C3_wipe_resource lumaBlank (styleConfig 24) false (constRand 0) (by decide) (by decide)).1

/-- C4 as stated fails. With the random style and a draw of 0 the effective
index is 1, the dissolve, and the resource is the empty string. -/
theorem C4_counterexample :
    (styleConfig 0).transitionStyle = 0 ∧ 0 ≤ constRand 0 0
    ∧ (lumaIndex (styleConfig 0) (constRand 0)).1 = 1
    ∧ (applyLumaTransitionProperties lumaBlank (styleConfig 0) false (constRand 0)).1.resource
      = some "" := by
  decide

/-- C4 (amended). Random transition style in `applyLumaTransitionProperties`:
when `transitionStyle` is 0, for every non-negative `r` returned by the
randomness source the effective style index is `r mod 24 + 1`, an integer in
`[1, 24]` (never 0, the random entry itself); it is the dissolve, with the
empty resource, exactly when `r` is a multiple of 24, and otherwise the
resource is the non-empty name of luma pattern `index - 1`. -/
theorem C4_random_style (luma : Transition) (config : SlideshowConfig) (playerGPU : Bool)
    (rng : Rand) (h0 : config.transitionStyle = 0) (hr : 0 ≤ rng 0) :
    (lumaIndex config rng).1 = rng 0 % 24 + 1
    ∧ 1 ≤ (lumaIndex config rng).1 ∧ (lumaIndex config rng).1 ≤ 24
    ∧ ((applyLumaTransitionProperties luma config playerGPU rng).1.resource = some ""
        ↔ rng 0 % 24 = 0)
    ∧ (rng 0 % 24 ≠ 0 →
        (applyLumaTransitionProperties luma config playerGPU rng).1.resource
          = some (lumaResource ((lumaIndex config rng).1 - 1))
        ∧ lumaResource ((lumaIndex config rng).1 - 1) ≠ "") := by
  have hidx : (lumaIndex config rng).1 = rng 0 % 24 + 1 := by
    unfold lumaIndex rand
    simp only [h0, if_true]
    rw [Int.tmod_eq_emod hr (by decide)]
  have hlo : 0 ≤ rng 0 % 24 := Int.emod_nonneg _ (by decide)
  have hhi : rng 0 % 24 < 24 := Int.emod_lt_of_pos _ (by decide)
  have hne : ∀ n : Int, 1 ≤ n → n ≤ 23 → lumaResource n ≠ "" := by
    intro n n1 n23
    interval_cases n <;> decide
  refine ⟨hidx, by omega, by omega, ?_, ?_⟩
  · rw [applyLuma_resource, hidx]
    constructor
    · intro h
      by_contra hm
      rw [if_neg (by omega)] at h
      exact hne (rng 0 % 24 + 1 - 1) (by omega) (by omega) (Option.some.inj h)
    · intro h
      rw [if_pos (by omega)]
  · intro hm
    rw [applyLuma_resource, hidx, if_neg (by omega)]
    exact ⟨rfl, hne _ (by omega) (by omega)⟩

/-- C4 (amended) at a concrete draw: `r = 47` gives index 24 and the resource
of pattern 23. -/
theorem C4_random_style_witness :
    (lumaIndex (styleConfig 0) (constRand 47)).1 = 24
    ∧ (applyLumaTransitionProperties lumaBlank (styleConfig 0) false (constRand 47)).1.resource
        = some "%luma23.pgm" := by
  obtain ⟨h1, _, _, _, h5⟩ :=
    C4_random_style lumaBlank (styleConfig 0) false (constRand 47) rfl (by decide)
  have hidx : (lumaIndex (styleConfig 0) (constRand 47)).1 = 24 := by rw [h1]; decide
  refine ⟨hidx, ?_⟩
  rw [(h5 (by decide)).1, hidx]
  decide

/-- Two levels of nesting always suffice: the slot returns for every widget
state. -/
theorem on_parameterChanged_returns (depth : Nat) (w : Widget) :
    (on_parameterChanged (depth + 2) w).isSome = true := by
  simp only [on_parameterChanged]
  split_ifs <;> simp_all [QSpinBox.setValue]

/-- What `storeParameters` leaves in the widget, in terms of the two duration
spin boxes it reads. -/
theorem storeParameters_spec (w : Widget) :
    (storeParameters w).m_config.transitionDuration = w.m_transitionDurationSpinner.value
    ∧ (storeParameters w).m_config.clipDuration = w.m_clipDurationSpinner.value
    ∧ (storeParameters w).m_transitionDurationSpinner = w.m_transitionDurationSpinner
    ∧ (storeParameters w).m_clipDurationSpinner = w.m_clipDurationSpinner
    ∧ ((storeParameters w).m_transitionStyleCombo.enabled = true
        ↔ w.m_transitionDurationSpinner.value ≠ 0)
    ∧ ((storeParameters w).m_softnessSpinner.enabled = true
        ↔ w.m_transitionDurationSpinner.value ≠ 0) := by
  unfold storeParameters
  split_ifs with h <;> simp [h, QSpinBox.setEnabled, QComboBox.setEnabled]

/-- C9. Parameter consistency guard in `on_parameterChanged`: for a clip
duration `c` in 4..600 and a transition duration `t` in 0..10 in the two spin
boxes (the transition spin box having its range 0..10), the slot returns, the
transition duration stored in the configuration is `min t (c / 2)` with integer
division, the clip duration (spin box and configuration) is `c`, and the style
and softness inputs are enabled exactly when the stored transition duration is
not zero. -/
theorem C9_parameter_guard (depth : Nat) (w : Widget) (c t : Int)
    (hc : w.m_clipDurationSpinner.value = c) (ht : w.m_transitionDurationSpinner.value = t)
    (hmin : w.m_transitionDurationSpinner.minimum = 0)
    (hmax : w.m_transitionDurationSpinner.maximum = 10)
    (hc4 : 4 ≤ c) (hc600 : c ≤ 600) (ht0 : 0 ≤ t) (ht10 : t ≤ 10) :
    ∃ w' : Widget, on_parameterChanged (depth + 2) w = some w'
      ∧ w'.m_config.transitionDuration = min t (Int.tdiv c 2)
      ∧ w'.m_config.transitionDuration ≤ Int.tdiv c 2
      ∧ (t ≤ Int.tdiv c 2 → w'.m_config.transitionDuration = t)
      ∧ w'.m_transitionDurationSpinner.value = w'.m_config.transitionDuration
      ∧ w'.m_config.clipDuration = c ∧ w'.m_clipDurationSpinner.value = c
      ∧ (w'.m_transitionStyleCombo.enabled = true ↔ w'.m_config.transitionDuration ≠ 0)
      ∧ (w'.m_softnessSpinner.enabled = true ↔ w'.m_config.transitionDuration ≠ 0) := by
  have hdiv : Int.tdiv c 2 = c / 2 := Int.tdiv_eq_ediv (by omega) (by decide)
  have hd2 : 2 ≤ c / 2 := by omega
  rw [hdiv]
  by_cases hgt : t > c / 2
  · -- the guard fires: the spin box is set to `c / 2` and the slot runs nested
    have hset : (w.m_transitionDurationSpinner.setValue (c / 2)).value = c / 2 := by
      simp only [QSpinBox.setValue, hmin, hmax]
      rw [if_neg (by omega), if_neg (by omega)]
    have hne : (w.m_transitionDurationSpinner.setValue (c / 2)).value ≠ t := by
      rw [hset]; omega
    refine ⟨storeParameters (storeParameters
      { w with m_transitionDurationSpinner := w.m_transitionDurationSpinner.setValue (c / 2) }),
      ?_, ?_⟩
    · simp only [on_parameterChanged, hc, ht, hdiv, if_pos hgt]
      rw [if_pos hne]
      simp only [hset, gt_iff_lt, lt_self_iff_false, if_false, Option.map_some']
    · have hmin' : min t (c / 2) = c / 2 := min_eq_right (le_of_lt hgt)
      obtain ⟨i1, i2, i3, i4, _, _⟩ := storeParameters_spec
        { w with m_transitionDurationSpinner := w.m_transitionDurationSpinner.setValue (c / 2) }
      obtain ⟨o1, o2, o3, o4, o5, o6⟩ := storeParameters_spec (storeParameters
        { w with m_transitionDurationSpinner := w.m_transitionDurationSpinner.setValue (c / 2) })
      simp only [i3, i4, hset, hc] at o1 o2 o3 o4 o5 o6
      rw [hmin', o1, o2, o3, o4, o5, o6, hset, hc]
      exact ⟨rfl, le_refl _, fun h => absurd h (not_le.mpr hgt), rfl, rfl, rfl, Iff.rfl, Iff.rfl⟩
  · -- the guard does not fire
    refine ⟨storeParameters w, ?_, ?_⟩
    · simp only [on_parameterChanged, hc, ht, hdiv, if_neg hgt, Option.map_some']
    · have hmin' : min t (c / 2) = t := min_eq_left (not_lt.mp hgt)
      obtain ⟨o1, o2, o3, o4, o5, o6⟩ := storeParameters_spec w
      rw [hmin', o1, o2, o3, o4, o5, o6, ht, hc]
      exact ⟨rfl, not_lt.mp hgt, fun _ => rfl, rfl, rfl, rfl, Iff.rfl, Iff.rfl⟩

/-- C9 at the spec's input: clip duration 5 s and transition duration 10 s
give a stored transition duration of 2 s, with both inputs enabled. -/
theorem C9_parameter_guard_witness :
    ∃ w' : Widget, on_parameterChanged 2 (widgetWith 5 10) = some w'
      ∧ w'.m_config.transitionDuration = 2
      ∧ w'.m_config.clipDuration = 5
      ∧ w'.m_transitionStyleCombo.enabled = true
      ∧ w'.m_softnessSpinner.enabled = true := by
  obtain ⟨w', h1, h2, _, _, _, h6, _, h8, h9⟩ :=
    C9_parameter_guard 0 (widgetWith 5 10) 5 10 rfl rfl rfl rfl (by decide) (by decide)
      (by decide) (by decide)
  have h2' : w'.m_config.transitionDuration = 2 := by rw [h2]; decide
  refine ⟨w', h1, h2', h6, ?_, ?_⟩
  · rw [h8, h2']; decide
  · rw [h9, h2']; decide

/-! ## Playlist operations on a list split at the index -/

/-- `clip_info` at the position where the list is split. -/
theorem clip_info_at (p : Playlist) (pre : List ClipInfo) (x : ClipInfo) (rest : List ClipInfo)
    (h : p.entries = pre ++ x :: rest) :
    p.clip_info (pre.length : Int) = some x := by
  unfold Playlist.clip_info
  rw [if_pos (Int.natCast_nonneg _), Int.toNat_natCast, h,
    List.getElem?_append_right (le_refl _)]
  simp

/-- `get_clip` at the position where the list is split. -/
theorem get_clip_at (p : Playlist) (pre : List ClipInfo) (x : ClipInfo) (rest : List ClipInfo)
    (h : p.entries = pre ++ x :: rest) :
    p.get_clip (pre.length : Int) = some x.producer := by
  unfold Playlist.get_clip
  rw [clip_info_at p pre x rest h]
  rfl

/-- `List.modify` at the position where the list is split. -/
theorem modify_at {α : Type} (f : α → α) (pre : List α) (x : α) (rest : List α) :
    List.modify f pre.length (pre ++ x :: rest) = pre ++ f x :: rest := by
  induction pre with
  | nil => simp
  | cons a pre ih => simp [ih]

/-- `modifyProducer` at the position where the list is split. -/
theorem modifyProducer_at (p : Playlist) (f : Producer → Producer) (pre : List ClipInfo)
    (x : ClipInfo) (rest : List ClipInfo) (h : p.entries = pre ++ x :: rest) :
    p.modifyProducer (pre.length : Int) f
      = { p with entries := pre ++ { x with producer := f x.producer } :: rest } := by
  unfold Playlist.modifyProducer
  rw [if_pos (Int.natCast_nonneg _), Int.toNat_natCast, h, modify_at]

/-- `mix` at the position where the list is split: the mix entry goes between
the two entries that follow the split. -/
theorem mix_at (p : Playlist) (length : Int) (pre : List ClipInfo) (a b : ClipInfo)
    (rest : List ClipInfo) (h : p.entries = pre ++ a :: b :: rest) :
    p.mix (pre.length : Int) length
      = { p with entries := pre ++ a :: mixEntry p.profile length none [] :: b :: rest } := by
  unfold Playlist.mix Playlist.count
  have hlen : ((pre.length : Int) + 1 < (p.entries.length : Int)) := by
    rw [h]; simp
  rw [if_pos ⟨Int.natCast_nonneg _, hlen⟩, Int.toNat_natCast, h]
  congr 1
  rw [List.take_append, List.drop_append]
  simp

/-! ## The transition loop computes the interleaving -/

/-- The update of the producer at a known position, with the new entry given. -/
theorem modifyProducer_eq (p : Playlist) (f : Producer → Producer) (pre : List ClipInfo)
    (x y : ClipInfo) (rest : List ClipInfo) (i : Int) (q : Playlist)
    (hp : p = { profile := q.profile, entries := pre ++ x :: rest })
    (hi : i = (pre.length : Int)) (hy : y = { x with producer := f x.producer }) :
    p.modifyProducer i f = { profile := q.profile, entries := pre ++ y :: rest } := by
  subst hp hi hy
  exact modifyProducer_at _ f pre x rest rfl

/-- One pass of the loop body on a playlist split at `i`: the three updates of
the freshly inserted mix. -/
theorem loop_body_at (p : Playlist) (fpt : Int) (luma : Transition) (pre : List ClipInfo)
    (a b : ClipInfo) (rest : List ClipInfo) (h : p.entries = pre ++ a :: b :: rest) :
    (((p.mix (pre.length : Int) fpt).modifyProducer ((pre.length : Int) + 1)
        (fun pr => { pr with shotcutTransition := some "lumaMix" })).mix_add
          ((pre.length : Int) + 1) { service := "mix:-1" }).mix_add ((pre.length : Int) + 1) luma
      = { p with entries := (pre ++ [a, transitionEntry p.profile fpt luma]) ++ b :: rest } := by
  have hidx : (pre.length : Int) + 1 = ((pre ++ [a]).length : Int) := by simp
  have h1 : p.mix (pre.length : Int) fpt
      = { profile := p.profile
          entries := (pre ++ [a]) ++ mixEntry p.profile fpt none [] :: (b :: rest) } := by
    rw [mix_at p fpt pre a b rest h]; simp
  have h2 := modifyProducer_eq _ (fun pr => { pr with shotcutTransition := some "lumaMix" })
    (pre ++ [a]) (mixEntry p.profile fpt none []) (mixEntry p.profile fpt (some "lumaMix") [])
    (b :: rest) _ p h1 hidx rfl
  unfold Playlist.mix_add
  have h3 := modifyProducer_eq _ (fun pr => match pr.tractor with
      | some ts => { pr with tractor := some (ts ++ [({ service := "mix:-1" } : Transition)]) }
      | none => pr)
    (pre ++ [a]) (mixEntry p.profile fpt (some "lumaMix") [])
    (mixEntry p.profile fpt (some "lumaMix") [{ service := "mix:-1" }])
    (b :: rest) _ p h2 hidx rfl
  have h4 := modifyProducer_eq _ (fun pr => match pr.tractor with
      | some ts => { pr with tractor := some (ts ++ [luma]) }
      | none => pr)
    (pre ++ [a]) (mixEntry p.profile fpt (some "lumaMix") [{ service := "mix:-1" }])
    (mixEntry p.profile fpt (some "lumaMix") [{ service := "mix:-1" }, luma])
    (b :: rest) _ p h3 hidx rfl
  rw [h4]
  simp [transitionEntry]

/-- One pass of the loop when at least two entries remain at `i`. -/
theorem transitionLoop_step (config : SlideshowConfig) (playerGPU : Bool) (fpt : Int)
    (pre : List ClipInfo) (a b : ClipInfo) (rest : List ClipInfo) (st : LoopState)
    (h : st.slideshow.entries = pre ++ a :: b :: rest) :
    transitionLoop config playerGPU fpt (pre.length : Int)
        ((pre.length : Int) + ((a :: b :: rest).length : Int)) st
      = transitionLoop config playerGPU fpt ((pre.length : Int) + 1 + 1)
          ((pre.length : Int) + ((a :: b :: rest).length : Int) + 1)
          { slideshow := { st.slideshow with
              entries := (pre ++ [a, transitionEntry st.slideshow.profile fpt
                (lumaFor config playerGPU st.rng).1]) ++ b :: rest }
            rng := (lumaFor config playerGPU st.rng).2
            mixedAt := st.mixedAt ++ [(pre.length : Int)] } := by
  rw [transitionLoop, if_pos (by simp; omega)]
  have hmix := mix_at st.slideshow fpt pre a b rest h
  have hget : (st.slideshow.mix (pre.length : Int) fpt).get_clip ((pre.length : Int) + 1)
      = some (mixEntry st.slideshow.profile fpt none []).producer := by
    have hidx : (pre.length : Int) + 1 = ((pre ++ [a]).length : Int) := by simp
    rw [hidx]
    exact get_clip_at _ (pre ++ [a]) _ (b :: rest) (by rw [hmix]; simp)
  simp only [hget]
  rw [loop_body_at st.slideshow fpt _ pre a b rest h]
  rfl

/-- The loop started at position `pre.length` with `cs` still to process leaves
`pre` alone, replaces `cs` by its interleaving and calls `mix` at every second
index from `pre.length` on, `cs.length - 1` times. -/
theorem transitionLoop_weave (config : SlideshowConfig) (playerGPU : Bool) (fpt : Int) :
    ∀ (cs pre : List ClipInfo) (st : LoopState), st.slideshow.entries = pre ++ cs →
      transitionLoop config playerGPU fpt (pre.length : Int)
          ((pre.length : Int) + (cs.length : Int)) st
        = { slideshow :=
              { st.slideshow with
                entries := pre ++ (weave st.slideshow.profile config playerGPU fpt cs st.rng).1 }
            rng := (weave st.slideshow.profile config playerGPU fpt cs st.rng).2
            mixedAt := st.mixedAt
              ++ (List.range (cs.length - 1)).map (fun (k : Nat) => (pre.length : Int) + 2 * (k : Int)) } := by
  intro cs
  induction cs with
  | nil =>
    intro pre st h
    rw [transitionLoop, if_neg (by simp)]
    simp [weave, ← h]
  | cons c tail ih =>
    intro pre st h
    cases tail with
    | nil =>
      rw [transitionLoop, if_neg (by simp)]
      simp [weave, ← h]
    | cons c' cs =>
      rw [transitionLoop_step config playerGPU fpt pre c c' cs st h]
      have hstep := ih (pre ++ [c, transitionEntry st.slideshow.profile fpt
          (lumaFor config playerGPU st.rng).1])
        { slideshow := { st.slideshow with
            entries := (pre ++ [c, transitionEntry st.slideshow.profile fpt
              (lumaFor config playerGPU st.rng).1]) ++ c' :: cs }
          rng := (lumaFor config playerGPU st.rng).2
          mixedAt := st.mixedAt ++ [(pre.length : Int)] } rfl
      have e1 : (pre.length : Int) + 1 + 1
          = ((pre ++ [c, transitionEntry st.slideshow.profile fpt
              (lumaFor config playerGPU st.rng).1]).length : Int) := by
        simp; ring
      have e2 : (pre.length : Int) + ((c :: c' :: cs).length : Int) + 1
          = ((pre ++ [c, transitionEntry st.slideshow.profile fpt
              (lumaFor config playerGPU st.rng).1]).length : Int) + ((c' :: cs).length : Int) := by
        simp; ring
      rw [e1, e2, hstep]
      simp only [weave, List.append_assoc, List.cons_append, List.nil_append,
        List.length_cons, List.length_append, List.length_nil]
      congr 1
      rw [show cs.length + 1 + 1 - 1 = (cs.length + 1 - 1) + 1 by omega, List.range_succ_eq_map]
      simp only [List.map_cons, List.map_map, List.singleton_append, List.cons.injEq]
      have hfun : (fun (k : Nat) => ((pre.length + (0 + 1 + 1) : Nat) : Int) + 2 * (k : Int))
          = (fun (k : Nat) => (pre.length : Int) + 2 * (k : Int)) ∘ Nat.succ := by
        funext k
        simp only [Function.comp, Nat.cast_add, Nat.cast_one, Nat.cast_succ, Nat.cast_zero]
        ring
      rw [hfun]
      simp

/-! ## The copy and filter blocks -/

/-- The count of a playlist, as a natural number. -/
theorem count_toNat (p : Playlist) : p.count.toNat = p.entries.length := by
  unfold Playlist.count
  exact Int.toNat_natCast _

/-- `clip_info` inside the range. -/
theorem clip_info_lt (p : Playlist) (n : Nat) (h : n < p.entries.length) :
    p.clip_info (n : Int) = some p.entries[n] := by
  unfold Playlist.clip_info
  rw [if_pos (Int.natCast_nonneg _), Int.toNat_natCast]
  exact List.getElem?_eq_getElem h

/-- The copy the loop of lines 165-173 makes of one source entry. -/
theorem copyClips_upto (m_clips : Playlist) (fpc : Int)
    (hvalid : ∀ c ∈ m_clips.entries, c.producer.xmlValid = true) :
    ∀ n : Nat, n ≤ m_clips.entries.length →
      (List.range n).foldl
        (fun (slideshow : Playlist) (i : Nat) =>
          match m_clips.clip_info (i : Int) with
          | some c => slideshow.append c.producer c.frame_in (c.frame_in + fpc - 1)
          | none => slideshow)
        { profile := m_clips.profile, entries := [] }
      = { profile := m_clips.profile
          entries := (m_clips.entries.take n).map
            (fun c => { producer := c.producer, frame_in := c.frame_in,
                        frame_out := c.frame_in + fpc - 1 }) } := by
  intro n
  induction n with
  | zero => intro _; simp
  | succ n ih =>
    intro hn
    have hlt : n < m_clips.entries.length := hn
    rw [List.range_succ, List.foldl_append, ih (le_of_lt hlt)]
    simp only [List.foldl_cons, List.foldl_nil, clip_info_lt m_clips n hlt]
    unfold Playlist.append
    rw [if_pos (hvalid _ (List.getElem_mem hlt))]
    rw [List.take_succ, List.getElem?_eq_getElem hlt]
    simp only [List.map_append, Option.toList, List.map_cons, List.map_nil]

/-- The copy block, when every source entry can be copied. -/
theorem copyClips_entries (m_clips : Playlist) (fpc : Int)
    (hvalid : ∀ c ∈ m_clips.entries, c.producer.xmlValid = true) :
    copyClips m_clips fpc
      = { profile := m_clips.profile
          entries := m_clips.entries.map
            (fun c => { producer := c.producer, frame_in := c.frame_in,
                        frame_out := c.frame_in + fpc - 1 }) } := by
  unfold copyClips
  rw [count_toNat, copyClips_upto m_clips fpc hvalid _ (le_refl _), List.take_length]

/-- The entry the filter loop leaves at a position it has visited. -/
theorem addFilters_upto (config : SlideshowConfig) (fpc : Int) (p : Playlist) :
    ∀ n : Nat, n ≤ p.entries.length →
      (List.range n).foldl
        (fun (slideshow : Playlist) (i : Nat) => attachAffine config fpc slideshow (i : Int)) p
      = { profile := p.profile
          entries := (p.entries.take n).map
              (fun c => { c with producer := { c.producer with
                filters := c.producer.filters
                  ++ [applyAffineFilterProperties { service := "affine" } config c.producer
                        (c.frame_in + fpc - 1)] } })
            ++ p.entries.drop n } := by
  intro n
  induction n with
  | zero => intro _; simp
  | succ n ih =>
    intro hn
    have hlt : n < p.entries.length := hn
    rw [List.range_succ, List.foldl_append, ih (le_of_lt hlt)]
    simp only [List.foldl_cons, List.foldl_nil]
    have hlen : ((p.entries.take n).map
        (fun c => { c with producer := { c.producer with
          filters := c.producer.filters
            ++ [applyAffineFilterProperties { service := "affine" } config c.producer
                  (c.frame_in + fpc - 1)] } })).length = n := by
      simp [List.length_take, le_of_lt hlt]
    have hdrop : p.entries.drop n = p.entries[n] :: p.entries.drop (n + 1) :=
      List.drop_eq_getElem_cons hlt
    rw [hdrop]
    have hci := clip_info_at
      { profile := p.profile
        entries := (p.entries.take n).map
            (fun c => { c with producer := { c.producer with
              filters := c.producer.filters
                ++ [applyAffineFilterProperties { service := "affine" } config c.producer
                      (c.frame_in + fpc - 1)] } })
          ++ p.entries[n] :: p.entries.drop (n + 1) } _ p.entries[n] (p.entries.drop (n + 1)) rfl
    have hmp := fun f => modifyProducer_at
      { profile := p.profile
        entries := (p.entries.take n).map
            (fun c => { c with producer := { c.producer with
              filters := c.producer.filters
                ++ [applyAffineFilterProperties { service := "affine" } config c.producer
                      (c.frame_in + fpc - 1)] } })
          ++ p.entries[n] :: p.entries.drop (n + 1) } f _ p.entries[n] (p.entries.drop (n + 1)) rfl
    rw [hlen] at hci hmp
    unfold attachAffine
    rw [hci]
    simp only []
    rw [hmp, List.take_succ, List.getElem?_eq_getElem hlt]
    simp only [List.map_append, Option.toList, List.map_cons, List.map_nil, List.append_assoc,
      List.singleton_append]

/-- The filter loop run over the whole playlist. -/
theorem addFilters_full (config : SlideshowConfig) (fpc : Int) (p : Playlist) :
    (List.range p.entries.length).foldl
        (fun (slideshow : Playlist) (i : Nat) => attachAffine config fpc slideshow (i : Int)) p
      = { profile := p.profile
          entries := p.entries.map
              (fun c => { c with producer := { c.producer with
                filters := c.producer.filters
                  ++ [applyAffineFilterProperties { service := "affine" } config c.producer
                        (c.frame_in + fpc - 1)] } }) } := by
  rw [addFilters_upto config fpc p _ (le_refl _), List.take_length, List.drop_length,
    List.append_nil]

/-! ## Shape of the interleaving -/

/-- The interleaving of `n ≥ 1` clips has `2n - 1` entries. -/
theorem weave_length (profile : Profile) (config : SlideshowConfig) (playerGPU : Bool)
    (fpt : Int) : ∀ (cs : List ClipInfo) (rng : Rand),
      (weave profile config playerGPU fpt cs rng).1.length = 2 * cs.length - 1 := by
  intro cs
  induction cs with
  | nil => intro rng; simp [weave]
  | cons c tail ih =>
    intro rng
    cases tail with
    | nil => simp [weave]
    | cons c' cs =>
      simp only [weave, List.length_cons]
      rw [ih]
      simp only [List.length_cons]
      omega

/-- Position `2k` of the interleaving holds clip `k`. -/
theorem weave_even (profile : Profile) (config : SlideshowConfig) (playerGPU : Bool)
    (fpt : Int) : ∀ (cs : List ClipInfo) (rng : Rand) (k : Nat), k < cs.length →
      (weave profile config playerGPU fpt cs rng).1[2 * k]? = cs[k]? := by
  intro cs
  induction cs with
  | nil => intro rng k hk; simp at hk
  | cons c tail ih =>
    intro rng k hk
    cases tail with
    | nil =>
      have hk0 : k = 0 := by simpa using hk
      subst hk0
      simp [weave]
    | cons c' cs =>
      cases k with
      | zero => simp [weave]
      | succ k =>
        have hk' : k < (c' :: cs).length := by simpa using hk
        simp only [weave]
        rw [show 2 * (k + 1) = 2 * k + 1 + 1 by ring, List.getElem?_cons_succ,
          List.getElem?_cons_succ, List.getElem?_cons_succ]
        exact ih _ k hk'

/-- Position `2k + 1` of the interleaving holds a transition entry. -/
theorem weave_odd (profile : Profile) (config : SlideshowConfig) (playerGPU : Bool)
    (fpt : Int) : ∀ (cs : List ClipInfo) (rng : Rand) (k : Nat), k + 1 < cs.length →
      ∃ rng' : Rand, (weave profile config playerGPU fpt cs rng).1[2 * k + 1]?
        = some (transitionEntry profile fpt (lumaFor config playerGPU rng').1) := by
  intro cs
  induction cs with
  | nil => intro rng k hk; simp at hk
  | cons c tail ih =>
    intro rng k hk
    cases tail with
    | nil => simp at hk
    | cons c' cs =>
      cases k with
      | zero => exact ⟨rng, by simp [weave]⟩
      | succ k =>
        have hk' : k + 1 < (c' :: cs).length := by simpa using hk
        obtain ⟨rng', h⟩ := ih (lumaFor config playerGPU rng).2 k hk'
        refine ⟨rng', ?_⟩
        simp only [weave]
        rw [show 2 * (k + 1) + 1 = (2 * k + 1) + 1 + 1 by ring, List.getElem?_cons_succ,
          List.getElem?_cons_succ]
        exact h

/-- The interleaving of `n` clips has `n` clip entries and `n - 1` transition
entries. -/
theorem weave_counts (profile : Profile) (config : SlideshowConfig) (playerGPU : Bool)
    (fpt : Int) : ∀ (cs : List ClipInfo) (rng : Rand), (∀ c ∈ cs, c.isClip = true) →
      (weave profile config playerGPU fpt cs rng).1.countP ClipInfo.isClip = cs.length
      ∧ (weave profile config playerGPU fpt cs rng).1.countP ClipInfo.isTransition
          = cs.length - 1 := by
  intro cs
  induction cs with
  | nil => intro rng _; simp [weave]
  | cons c tail ih =>
    intro rng hall
    have hc : c.isClip = true := hall c (List.mem_cons_self _ _)
    have hct : c.isTransition = false := by
      unfold ClipInfo.isClip at hc
      unfold ClipInfo.isTransition
      cases h : c.producer.tractor <;> simp_all
    cases tail with
    | nil => simp [weave, hc, hct]
    | cons c' cs =>
      obtain ⟨h1, h2⟩ := ih (lumaFor config playerGPU rng).2
        (fun x hx => hall x (List.mem_cons_of_mem _ hx))
      have hm1 : (transitionEntry profile fpt (lumaFor config playerGPU rng).1).isClip = false := rfl
      have hm2 : (transitionEntry profile fpt (lumaFor config playerGPU rng).1).isTransition
          = true := rfl
      simp only [weave, List.countP_cons, h1, h2, hc, hct, hm1, hm2, List.length_cons]
      simp

/-! ## `getSlideshow` as a whole -/

/-- `getSlideshow` is the transition block applied to `beforeTransitions`. -/
theorem getSlideshowRun_eq (m_clips : Playlist) (config : SlideshowConfig) (playerGPU : Bool)
    (rng : Rand) :
    getSlideshowRun m_clips config playerGPU rng
      = if framesPerTransition config m_clips.profile.fps > 0 then
          transitionLoop config playerGPU (framesPerTransition config m_clips.profile.fps) 0
            m_clips.count
            { slideshow := beforeTransitions m_clips config, rng := rng, mixedAt := [] }
        else { slideshow := beforeTransitions m_clips config, rng := rng, mixedAt := [] } := rfl

/-- The playlist before the transition block, when every source entry can be
copied: the source entries mapped one by one. -/
theorem beforeTransitions_eq (m_clips : Playlist) (config : SlideshowConfig)
    (hvalid : ∀ c ∈ m_clips.entries, c.producer.xmlValid = true) :
    beforeTransitions m_clips config
      = { profile := m_clips.profile
          entries := m_clips.entries.map
            (slideshowClip config (framesPerClip config m_clips.profile.fps)) } := by
  unfold beforeTransitions addFilters
  simp only []
  rw [copyClips_entries m_clips _ hvalid]
  split_ifs with hcond
  · rw [count_toNat]
    have h := addFilters_full config (framesPerClip config m_clips.profile.fps)
      { profile := m_clips.profile
        entries := m_clips.entries.map
          (fun c => { producer := c.producer, frame_in := c.frame_in,
                      frame_out := c.frame_in + framesPerClip config m_clips.profile.fps - 1 }) }
    simp only [List.length_map] at h
    rw [h]
    congr 1
    rw [List.map_map]
    apply List.map_congr_left
    intro c _
    simp [slideshowClip, hcond]
  · congr 1
    apply List.map_congr_left
    intro c _
    simp [slideshowClip, hcond]

/-- The result of `getSlideshow` for a positive transition length. -/
theorem getSlideshowRun_weave (m_clips : Playlist) (config : SlideshowConfig)
    (playerGPU : Bool) (rng : Rand)
    (hvalid : ∀ c ∈ m_clips.entries, c.producer.xmlValid = true)
    (hfpt : 0 < framesPerTransition config m_clips.profile.fps) :
    getSlideshowRun m_clips config playerGPU rng
      = { slideshow :=
            { profile := m_clips.profile
              entries := (weave m_clips.profile config playerGPU
                (framesPerTransition config m_clips.profile.fps)
                (m_clips.entries.map
                  (slideshowClip config (framesPerClip config m_clips.profile.fps))) rng).1 }
          rng := (weave m_clips.profile config playerGPU
                (framesPerTransition config m_clips.profile.fps)
                (m_clips.entries.map
                  (slideshowClip config (framesPerClip config m_clips.profile.fps))) rng).2
          mixedAt := (List.range (m_clips.entries.length - 1)).map
            (fun (k : Nat) => 2 * (k : Int)) } := by
  rw [getSlideshowRun_eq, if_pos hfpt, beforeTransitions_eq m_clips config hvalid]
  have h := transitionLoop_weave config playerGPU (framesPerTransition config m_clips.profile.fps)
    (m_clips.entries.map (slideshowClip config (framesPerClip config m_clips.profile.fps))) []
    { slideshow := { profile := m_clips.profile
                     entries := m_clips.entries.map
                      (slideshowClip config (framesPerClip config m_clips.profile.fps)) }
      rng := rng, mixedAt := [] } rfl
  simp only [List.length_nil, Nat.cast_zero, zero_add, List.length_map, List.nil_append] at h
  unfold Playlist.count
  rw [h]

/-! ## No block before the transitions makes a transition entry -/

/-- The entry made from a clip is a clip entry. -/
theorem slideshowClip_isClip (config : SlideshowConfig) (fpc : Int) (c : ClipInfo)
    (h : c.isClip = true) : (slideshowClip config fpc c).isClip = true := by
  unfold slideshowClip
  simp only []
  split_ifs <;> exact h

/-! ## Claims about `getSlideshow` -/

/-- The frame counts of the default configuration at 25 frames per second. -/
theorem default_frames :
    framesPerClip defaultConfig fiveClips.profile.fps = 250
    ∧ framesPerTransition defaultConfig fiveClips.profile.fps = 50 := by
  have h1 : framesPerClip defaultConfig fiveClips.profile.fps = 250 := by
    unfold framesPerClip
    rw [Int.ceil_eq_iff]
    norm_num [defaultConfig, styleConfig, fiveClips, hdProfile]
  refine ⟨h1, ?_⟩
  have h2 : ⌈((defaultConfig.transitionDuration : Int) : ℚ) * fiveClips.profile.fps⌉ = 50 := by
    rw [Int.ceil_eq_iff]
    norm_num [defaultConfig, styleConfig, fiveClips, hdProfile]
  unfold framesPerTransition
  simp only [h1, h2]
  decide

/-! ## Rounding to a `double` -/

/-- An integer rounds to itself. -/
theorem roundHalfEven_intCast (z : Int) : roundHalfEven (z : ℚ) = z := by
  unfold roundHalfEven
  simp

/-- Rounding down: the fraction above `f` is below one half. -/
theorem roundHalfEven_of_lt (q : ℚ) (f : Int) (h1 : (f : ℚ) ≤ q) (h2 : q - f < 1 / 2) :
    roundHalfEven q = f := by
  have hf : ⌊q⌋ = f := by
    rw [Int.floor_eq_iff]
    constructor
    · exact h1
    · linarith
  unfold roundHalfEven
  simp only [hf]
  rw [if_pos h2]

/-- Rounding up: the fraction above `f` is above one half. -/
theorem roundHalfEven_of_gt (q : ℚ) (f : Int) (h1 : q < (f : ℚ) + 1) (h2 : q - f > 1 / 2) :
    roundHalfEven q = f + 1 := by
  have hf : ⌊q⌋ = f := by
    rw [Int.floor_eq_iff]
    constructor
    · linarith
    · exact h1
  unfold roundHalfEven
  simp only [hf]
  rw [if_neg (by linarith), if_pos h2]

/-- A tie goes to the even neighbour. -/
theorem roundHalfEven_tie_even (q : ℚ) (f : Int) (h1 : q = (f : ℚ) + 1 / 2) (h2 : f % 2 = 0) :
    roundHalfEven q = f := by
  have hf : ⌊q⌋ = f := by
    rw [Int.floor_eq_iff]
    constructor <;> linarith
  unfold roundHalfEven
  simp only [hf]
  rw [if_neg (by linarith), if_neg (by linarith), if_pos h2]

/-- The rounding of a positive number whose binary exponent is known. -/
theorem roundDouble_of_exponent (q : ℚ) (e : Int) (hq : 0 < q) (h1 : (2 : ℚ) ^ e ≤ q)
    (h2 : q < (2 : ℚ) ^ (e + 1)) :
    roundDouble q = (roundHalfEven (q / (2 : ℚ) ^ (e - 52)) : ℚ) * (2 : ℚ) ^ (e - 52) := by
  have he : Int.log 2 |q| = e := by
    rw [abs_of_pos hq]
    apply le_antisymm
    · have := (Int.lt_zpow_iff_log_lt (b := 2) (by norm_num) hq (x := e + 1)).mp
        (by exact_mod_cast h2)
      omega
    · exact (Int.zpow_le_iff_le_log (b := 2) (by norm_num) hq).mp (by exact_mod_cast h1)
  unfold roundDouble
  rw [if_neg (ne_of_gt hq)]
  simp only [he]

/-- A positive integer below 2^53 is a `double`: rounding leaves it alone. -/
theorem roundDouble_natCast (n : Nat) (h0 : 0 < n) (h : n < 2 ^ 53) :
    roundDouble (n : ℚ) = n := by
  have hq : (0 : ℚ) < (n : ℚ) := by exact_mod_cast h0
  have hk : Nat.log 2 n ≤ 52 := by
    have := (Nat.lt_pow_iff_log_lt (by norm_num : 1 < 2) (Nat.pos_iff_ne_zero.mp h0)).mp h
    omega
  have he : Int.log 2 |(n : ℚ)| = (Nat.log 2 n : Int) := by
    rw [abs_of_pos hq]
    exact Int.log_natCast 2 n
  have hulp : (2 : ℚ) ^ ((Nat.log 2 n : Int) - 52) = ((2 : ℚ) ^ (52 - Nat.log 2 n))⁻¹ := by
    rw [← zpow_natCast, ← zpow_neg]
    congr 1
    omega
  unfold roundDouble
  rw [if_neg (ne_of_gt hq)]
  simp only [he, hulp]
  have hint : (n : ℚ) / ((2 : ℚ) ^ (52 - Nat.log 2 n))⁻¹
      = (((n * 2 ^ (52 - Nat.log 2 n) : Nat) : Int) : ℚ) := by
    rw [div_inv_eq_mul]
    push_cast
    ring
  rw [hint, roundHalfEven_intCast]
  push_cast
  field_simp

/-! ## The copy and filter blocks for any frame count -/

/-- The copy and filter blocks run with the frame count `fpc`, when every
source entry can be copied: the source entries mapped one by one. -/
theorem blocks_eq (m_clips : Playlist) (config : SlideshowConfig) (fpc : Int)
    (hvalid : ∀ c ∈ m_clips.entries, c.producer.xmlValid = true) :
    addFilters config fpc m_clips.count (copyClips m_clips fpc)
      = { profile := m_clips.profile
          entries := m_clips.entries.map (slideshowClip config fpc) } := by
  unfold addFilters
  rw [copyClips_entries m_clips _ hvalid]
  split_ifs with hcond
  · rw [count_toNat]
    have h := addFilters_full config fpc
      { profile := m_clips.profile
        entries := m_clips.entries.map
          (fun c => { producer := c.producer, frame_in := c.frame_in,
                      frame_out := c.frame_in + fpc - 1 }) }
    simp only [List.length_map] at h
    rw [h]
    congr 1
    rw [List.map_map]
    apply List.map_congr_left
    intro c _
    simp [slideshowClip, hcond]
  · congr 1
    apply List.map_congr_left
    intro c _
    simp [slideshowClip, hcond]

/-! ## Line 159 at the frame rate 100/3 -/

/-- The `double` that stands for the frame rate 100/3. -/
theorem roundDouble_thirds : roundDouble (100 / 3) = fpsThirds := by
  rw [roundDouble_of_exponent (100 / 3) 5 (by norm_num) (by norm_num) (by norm_num)]
  rw [roundHalfEven_of_gt _ 4691249611844266 (by norm_num) (by norm_num)]
  norm_num [fpsThirds]

/-- The product for 15 s rounds up to 500 + 2^-44, so the count is 501. -/
theorem frames_thirds_15 : framesPerClipDouble (durationConfig 15) fpsThirds = 501 := by
  unfold framesPerClipDouble
  rw [roundDouble_of_exponent _ 8 (by norm_num [durationConfig, fpsThirds])
    (by norm_num [durationConfig, fpsThirds]) (by norm_num [durationConfig, fpsThirds])]
  rw [roundHalfEven_of_gt _ 8796093022208000 (by norm_num [durationConfig, fpsThirds])
    (by norm_num [durationConfig, fpsThirds])]
  rw [Int.ceil_eq_iff]
  norm_num

/-- The product for 6 s is a tie and rounds to 200, so the count is 200. -/
theorem frames_thirds_6 : framesPerClipDouble (durationConfig 6) fpsThirds = 200 := by
  unfold framesPerClipDouble
  rw [roundDouble_of_exponent _ 7 (by norm_num [durationConfig, fpsThirds])
    (by norm_num [durationConfig, fpsThirds]) (by norm_num [durationConfig, fpsThirds])]
  rw [roundHalfEven_tie_even _ 7036874417766400 (by norm_num [durationConfig, fpsThirds])
    (by decide)]
  rw [Int.ceil_eq_iff]
  norm_num

/-! ## Frame quantization -/

/-- C8 as stated fails. On a profile whose frame rate is 100/3 (`fps()` returns
the nearest `double`), with 15 s clips the claim gives
`ceil(15 * 100/3) = 500` frames per clip, but the product of line 159 rounds
to `500 + 2^-44`, the count is 501 and the clip is appended with the range
0..500.  Reading `fps` as the `double` itself does not save the claim: with
6 s clips the exact product is above 200, so its ceiling is 201, but it rounds
to 200 and the count is 200. -/
theorem C8_counterexample :
    oneClipThirds.profile.fps = roundDouble (100 / 3)
    ∧ ⌈((durationConfig 15).clipDuration : ℚ) * (100 / 3)⌉ = 500
    ∧ framesPerClipDouble (durationConfig 15) oneClipThirds.profile.fps = 501
    ∧ (beforeTransitionsDouble oneClipThirds (durationConfig 15)).entries.map
        (fun e => (e.frame_in, e.frame_out, e.frameCount)) = [(0, 500, 501)]
    ∧ ⌈((durationConfig 6).clipDuration : ℚ) * oneClipThirds.profile.fps⌉ = 201
    ∧ framesPerClipDouble (durationConfig 6) oneClipThirds.profile.fps = 200 := by
  refine ⟨roundDouble_thirds.symm, ?_, frames_thirds_15, ?_, ?_, frames_thirds_6⟩
  · rw [Int.ceil_eq_iff]
    norm_num [durationConfig]
  · have h : beforeTransitionsDouble oneClipThirds (durationConfig 15)
        = addFilters (durationConfig 15) 501 oneClipThirds.count
            (copyClips oneClipThirds 501) := by
      unfold beforeTransitionsDouble
      simp only []
      rw [show oneClipThirds.profile.fps = fpsThirds from rfl, frames_thirds_15]
    rw [h, blocks_eq oneClipThirds (durationConfig 15) 501 (by decide)]
    decide
  · rw [Int.ceil_eq_iff]
    norm_num [durationConfig, oneClipThirds, thirdsProfile, fpsThirds]

/-- C8 (amended). Frame quantization in `getSlideshow`, before transition
insertion: for a source playlist of `N ≥ 0` clips that can all be copied, the
playlist has exactly `N` entries, all of them clip entries, holding the source
media in source order (the producers differ from the source's at most by the
attached filter); the entry for a source clip with in-frame `f` has the frame
range `[f, f + framesPerClip - 1]`, hence exactly `framesPerClip` frames,
whatever the source clip's out-frame, where `framesPerClip` is what line 159
computes: the ceiling of the product `clipDuration * fps` rounded to the
nearest `double`.  It is `ceil(clipDuration * fps)` whenever the product is a
positive integer below 2^53 (so for every integer frame rate), where it is
the product itself. -/
theorem C8_frame_quantization (m_clips : Playlist) (config : SlideshowConfig) (N : Nat)
    (hN : m_clips.entries.length = N)
    (hvalid : ∀ c ∈ m_clips.entries, c.producer.xmlValid = true)
    (hclips : ∀ c ∈ m_clips.entries, c.isClip = true) :
    (beforeTransitionsDouble m_clips config).entries.length = N
    ∧ (beforeTransitionsDouble m_clips config).entries.countP ClipInfo.isClip = N
    ∧ (beforeTransitionsDouble m_clips config).entries.map (fun e => (e.frame_in, e.frame_out))
        = m_clips.entries.map
            (fun c => (c.frame_in,
              c.frame_in + framesPerClipDouble config m_clips.profile.fps - 1))
    ∧ (∀ e ∈ (beforeTransitionsDouble m_clips config).entries,
        e.frameCount = framesPerClipDouble config m_clips.profile.fps)
    ∧ (beforeTransitionsDouble m_clips config).entries.map
          (fun e => { e.producer with filters := [] })
        = m_clips.entries.map (fun c => { c.producer with filters := [] })
    ∧ framesPerClipDouble config m_clips.profile.fps
        = ⌈roundDouble ((config.clipDuration : ℚ) * m_clips.profile.fps)⌉
    ∧ (∀ n : Nat, 0 < n → n < 2 ^ 53 →
        (config.clipDuration : ℚ) * m_clips.profile.fps = n →
        framesPerClipDouble config m_clips.profile.fps
            = ⌈(config.clipDuration : ℚ) * m_clips.profile.fps⌉
        ∧ framesPerClipDouble config m_clips.profile.fps = n) := by
  have heq : beforeTransitionsDouble m_clips config
      = { profile := m_clips.profile
          entries := m_clips.entries.map
            (slideshowClip config (framesPerClipDouble config m_clips.profile.fps)) } :=
    blocks_eq m_clips config _ hvalid
  have hall : ∀ e ∈ m_clips.entries.map
      (slideshowClip config (framesPerClipDouble config m_clips.profile.fps)),
      e.isClip = true := by
    intro e he
    obtain ⟨c, hc, rfl⟩ := List.mem_map.mp he
    exact slideshowClip_isClip _ _ _ (hclips c hc)
  rw [heq]
  refine ⟨by simp [hN], ?_, ?_, ?_, ?_, rfl, ?_⟩
  · rw [List.countP_eq_length.mpr hall]
    simp [hN]
  · simp only [List.map_map]
    apply List.map_congr_left
    intro c _
    simp only [Function.comp, slideshowClip]
    split_ifs <;> rfl
  · intro e he
    obtain ⟨c, _, rfl⟩ := List.mem_map.mp he
    simp only [ClipInfo.frameCount, slideshowClip]
    split_ifs <;> ring
  · simp only [List.map_map]
    apply List.map_congr_left
    intro c _
    simp only [Function.comp, slideshowClip]
    split_ifs <;> rfl
  · intro n h0 h53 hprod
    unfold framesPerClipDouble
    rw [hprod, roundDouble_natCast n h0 h53]
    have : ⌈(n : ℚ)⌉ = (n : Int) := by exact_mod_cast Int.ceil_intCast (n : Int)
    exact ⟨rfl, this⟩

/-- C8 (amended) at the spec's input: five clips, 10 s per clip at 25 fps give
five clip entries of 250 frames each, starting at the source in-frames
0, 5, 0, 0, 7. -/
theorem C8_frame_quantization_witness :
    framesPerClipDouble defaultConfig fiveClips.profile.fps = 250
    ∧ (beforeTransitionsDouble fiveClips defaultConfig).entries.length = 5
    ∧ (beforeTransitionsDouble fiveClips defaultConfig).entries.countP ClipInfo.isClip = 5
    ∧ (beforeTransitionsDouble fiveClips defaultConfig).entries.map
        (fun e => (e.frame_in, e.frame_out))
        = [(0, 249), (5, 254), (0, 249), (0, 249), (7, 256)]
    ∧ (∀ e ∈ (beforeTransitionsDouble fiveClips defaultConfig).entries, e.frameCount = 250) := by
  obtain ⟨h1, h2, h3, h4, _, _, h7⟩ := C8_frame_quantization fiveClips defaultConfig 5 rfl
    (by decide) (by decide)
  have h250 : framesPerClipDouble defaultConfig fiveClips.profile.fps = 250 := by
    have := (h7 250 (by norm_num) (by norm_num)
      (by norm_num [defaultConfig, styleConfig, fiveClips, hdProfile])).2
    exact_mod_cast this
  rw [h250] at h3 h4
  exact ⟨h250, h1, h2, h3, h4⟩

/-- The luma transition of a pass of the loop: its service and the fact that a
resource has been written. -/
theorem lumaFor_spec (config : SlideshowConfig) (playerGPU : Bool) (rng : Rand) :
    (lumaFor config playerGPU rng).1.service = (if playerGPU then "movit.luma_mix" else "luma")
    ∧ (lumaFor config playerGPU rng).1.resource ≠ none
    ∧ (lumaFor config playerGPU rng).1.softness
        = some ((config.transitionSoftness : ℚ) / 100) := by
  unfold lumaFor
  refine ⟨?_, ?_, ?_⟩
  · unfold applyLumaTransitionProperties
    cases playerGPU <;> simp only [] <;> split_ifs <;> simp_all
  · rw [applyLuma_resource]
    simp
  · unfold applyLumaTransitionProperties
    cases playerGPU <;> simp only [] <;> split_ifs <;> simp_all

/-- C1. Transition insertion in `getSlideshow`, for a source playlist of `N`
clips that are all copied and a positive `framesPerTransition`.  For `N = 0`
the result is empty.  For `N ≥ 1` the loop body runs exactly `N - 1` times,
calling `mix` at the indices `0, 2, ..., 2(N-2)`; the result has `2N - 1`
entries, `N` clip entries and `N - 1` transition entries; position `2k` holds
the clip made from source clip `k` (original order) and every odd position
holds a mix of `framesPerTransition` frames tagged `lumaMix` that carries
exactly the cross-fade `mix:-1` and one luma transition with a resource
written. -/
theorem C1_transition_insertion (m_clips : Playlist) (config : SlideshowConfig)
    (playerGPU : Bool) (rng : Rand) (N : Nat) (hN : m_clips.entries.length = N)
    (hvalid : ∀ c ∈ m_clips.entries, c.producer.xmlValid = true)
    (hclips : ∀ c ∈ m_clips.entries, c.isClip = true)
    (hfpt : 0 < framesPerTransition config m_clips.profile.fps) :
    (N = 0 → (getSlideshow m_clips config playerGPU rng).entries = [])
    ∧ (1 ≤ N →
        (getSlideshowRun m_clips config playerGPU rng).mixedAt
          = (List.range (N - 1)).map (fun (k : Nat) => 2 * (k : Int))
        ∧ (getSlideshowRun m_clips config playerGPU rng).mixedAt.length = N - 1
        ∧ (getSlideshow m_clips config playerGPU rng).entries.length = 2 * N - 1
        ∧ (getSlideshow m_clips config playerGPU rng).entries.countP ClipInfo.isClip = N
        ∧ (getSlideshow m_clips config playerGPU rng).entries.countP ClipInfo.isTransition
            = N - 1
        ∧ (∀ k : Nat, k < N →
            ∃ c : ClipInfo, m_clips.entries[k]? = some c
              ∧ (beforeTransitions m_clips config).entries[k]?
                  = some (slideshowClip config (framesPerClip config m_clips.profile.fps) c)
              ∧ (getSlideshow m_clips config playerGPU rng).entries[2 * k]?
                  = some (slideshowClip config (framesPerClip config m_clips.profile.fps) c))
        ∧ (∀ k : Nat, k + 1 < N →
            ∃ luma : Transition,
              (getSlideshow m_clips config playerGPU rng).entries[2 * k + 1]?
                = some (mixEntry m_clips.profile (framesPerTransition config m_clips.profile.fps)
                    (some "lumaMix") [{ service := "mix:-1" }, luma])
              ∧ (mixEntry m_clips.profile (framesPerTransition config m_clips.profile.fps)
                    (some "lumaMix") [{ service := "mix:-1" }, luma]).frameCount
                  = framesPerTransition config m_clips.profile.fps
              ∧ luma.service = (if playerGPU then "movit.luma_mix" else "luma")
              ∧ luma.resource ≠ none)) := by
  have hrun := getSlideshowRun_weave m_clips config playerGPU rng hvalid hfpt
  have hbefore := beforeTransitions_eq m_clips config hvalid
  have hentries : (getSlideshow m_clips config playerGPU rng).entries
      = (weave m_clips.profile config playerGPU (framesPerTransition config m_clips.profile.fps)
          (m_clips.entries.map
            (slideshowClip config (framesPerClip config m_clips.profile.fps))) rng).1 := by
    unfold getSlideshow
    rw [hrun]
  have hsc : ∀ c ∈ m_clips.entries.map
      (slideshowClip config (framesPerClip config m_clips.profile.fps)), c.isClip = true := by
    intro c hc
    obtain ⟨c0, hc0, rfl⟩ := List.mem_map.mp hc
    exact slideshowClip_isClip _ _ _ (hclips c0 hc0)
  constructor
  · intro h0
    rw [hentries, List.length_eq_zero.mp (hN.trans h0)]
    rfl
  · intro _
    obtain ⟨hcnt1, hcnt2⟩ := weave_counts m_clips.profile config playerGPU
      (framesPerTransition config m_clips.profile.fps) _ rng hsc
    rw [hentries, hrun, hbefore]
    refine ⟨by rw [hN], by simp [hN], ?_, ?_, ?_, ?_, ?_⟩
    · rw [weave_length, List.length_map, hN]
    · rw [hcnt1, List.length_map, hN]
    · rw [hcnt2, List.length_map, hN]
    · intro k hk
      have hk' : k < m_clips.entries.length := by rw [hN]; exact hk
      refine ⟨m_clips.entries[k], List.getElem?_eq_getElem hk', ?_, ?_⟩
      · simp [List.getElem?_map, List.getElem?_eq_getElem hk']
      · rw [weave_even _ _ _ _ _ _ k (by simpa using hk')]
        simp [List.getElem?_map, List.getElem?_eq_getElem hk']
    · intro k hk
      obtain ⟨rng', h⟩ := weave_odd m_clips.profile config playerGPU
        (framesPerTransition config m_clips.profile.fps)
        (m_clips.entries.map (slideshowClip config (framesPerClip config m_clips.profile.fps)))
        rng k (by rw [List.length_map, hN]; exact hk)
      obtain ⟨hs, hr, _⟩ := lumaFor_spec config playerGPU rng'
      refine ⟨(lumaFor config playerGPU rng').1, h, ?_, hs, hr⟩
      simp [ClipInfo.frameCount, mixEntry]

/-- C1 at the spec's input: five clips, 10 s clips and 2 s transitions at
25 fps.  The loop mixes at 0, 2, 4, 6 and the result has nine entries, five
clips and four transitions, each transition 50 frames long. -/
theorem C1_transition_insertion_witness :
    framesPerTransition defaultConfig fiveClips.profile.fps = 50
    ∧ (getSlideshowRun fiveClips defaultConfig false (constRand 0)).mixedAt = [0, 2, 4, 6]
    ∧ (getSlideshow fiveClips defaultConfig false (constRand 0)).entries.length = 9
    ∧ (getSlideshow fiveClips defaultConfig false (constRand 0)).entries.countP ClipInfo.isClip
        = 5
    ∧ (getSlideshow fiveClips defaultConfig false (constRand 0)).entries.countP
        ClipInfo.isTransition = 4
    ∧ (∀ k : Nat, k + 1 < 5 →
        ∃ luma : Transition,
          (getSlideshow fiveClips defaultConfig false (constRand 0)).entries[2 * k + 1]?
            = some (mixEntry fiveClips.profile 50 (some "lumaMix") [{ service := "mix:-1" }, luma])
          ∧ (mixEntry fiveClips.profile 50 (some "lumaMix")
                [{ service := "mix:-1" }, luma]).frameCount = 50) := by
  have hfpt := default_frames.2
  obtain ⟨_, h⟩ := C1_transition_insertion fiveClips defaultConfig false (constRand 0) 5 rfl
    (by decide) (by decide) (by rw [hfpt]; decide)
  obtain ⟨h1, _, h3, h4, h5, _, h7⟩ := h (by decide)
  refine ⟨hfpt, ?_, h3, h4, h5, ?_⟩
  · rw [h1]; decide
  · intro k hk
    obtain ⟨luma, e1, e2, _, _⟩ := h7 k hk
    rw [hfpt] at e1 e2
    exact ⟨luma, e1, e2⟩

end Slideshow
